import Mathlib

/-!
# zxing-angular: scanner component and continuous-scan adapter

A shallow embedding of

* `src/esm2015/lib/browser-multi-format-continuous-reader.js`
  (`BrowserMultiFormatContinuousReader`), and
* `src/dist/zxing-scanner/esm2015/lib/zxing-scanner.component.js`
  (`ZXingScannerComponent`; the copy under `src/zxing-scanner/` differs only in
  `ngOnDestroy`).

External collaborators are modelled at their interface: the rxjs 6
`BehaviorSubject`, the `BarcodeFormat` enum of `@zxing/library`, and the
engine's `decodeFromVideoDevice`, whose answers are taken from an `Env`.
Console output is not modelled.

JavaScript objects that are shared and mutated (code readers, the `scan$`
subjects, the engine's decode loops) live in stores indexed by natural
numbers; a value that may be `undefined`/`null` is an `Option`.  Strings that
the code inspects character by character are handled as `List Char`.
-/

deriving instance DecidableEq for Except

namespace ZXingScanner

/-! ## JavaScript string helpers -/

/-- The characters removed by `String.prototype.trim` (ECMAScript WhiteSpace and
LineTerminator code points). -/
def isJsWhiteSpace (c : Char) : Bool :=
  let n := c.toNat
  n == 0x09 || n == 0x0A || n == 0x0B || n == 0x0C || n == 0x0D || n == 0x20 ||
  n == 0xA0 || n == 0x1680 || (0x2000 ≤ n && n ≤ 0x200A) || n == 0x2028 ||
  n == 0x2029 || n == 0x202F || n == 0x205F || n == 0x3000 || n == 0xFEFF

/-- Model of `String.prototype.trim` on a list of characters. -/
def trimChars (l : List Char) : List Char :=
  ((l.dropWhile isJsWhiteSpace).reverse.dropWhile isJsWhiteSpace).reverse

/-- Model of `s.trim()`. -/
def jsTrim (s : String) : String := ⟨trimChars s.data⟩

/-- Model of `s.toUpperCase()`, exact on ASCII strings: the letters `a`-`z` are
mapped to `A`-`Z`; characters outside ASCII are left as they are. -/
def toUpperCase (s : String) : String := ⟨s.data.map Char.toUpper⟩

/-- Does `hay` start with `needle`? -/
def startsWith : List Char → List Char → Bool
  | [], _ => true
  | _ :: _, [] => false
  | p :: ps, c :: cs => p == c && startsWith ps cs

/-- Model of `hay.includes(needle)` on lists of characters. -/
def includesChars (needle : List Char) : List Char → Bool
  | [] => startsWith needle []
  | c :: cs => startsWith needle (c :: cs) || includesChars needle cs

/-- Model of `hay.includes(needle)`. -/
def jsIncludes (hay needle : String) : Bool := includesChars needle.data hay.data

/-! ## Values -/

/-- An error object as the code reads it: `error.name` and `error.message`
(the latter may be absent). -/
structure JsError where
  name : String
  message : Option String
  deriving DecidableEq, Repr

/-- What a JavaScript call can throw in this program: an error object, the
`TypeError` the runtime raises when a property of `undefined` is read, or the
`ReferenceError` it raises when an undeclared global is read. -/
inductive Thrown where
  | error (e : JsError)
  | typeError
  | referenceError
  deriving DecidableEq, Repr

/-- A JavaScript value as far as format resolution can produce one. -/
inductive JsVal where
  | undefined
  | num (n : Nat)
  | str (s : String)
  deriving DecidableEq, Repr

/-! ## Barcode formats -/

/-- The member names of the `BarcodeFormat` enum of `@zxing/library`, in
declaration order; the value of a member is its position. -/
def BarcodeFormat : List String :=
  ["AZTEC", "CODABAR", "CODE_39", "CODE_93", "CODE_128", "DATA_MATRIX", "EAN_8",
   "EAN_13", "ITF", "MAXICODE", "PDF_417", "QR_CODE", "RSS_14", "RSS_EXPANDED",
   "UPC_A", "UPC_E", "UPC_EAN_EXTENSION"]

/-- Position of `key` in `names`, counted from `i`. -/
def indexFrom (key : String) : List String → Nat → Option Nat
  | [], _ => none
  | n :: ns, i => if n = key then some i else indexFrom key ns (i + 1)

/-- The member name whose value prints as `key` (reverse mapping of a numeric
TypeScript enum), counted from `i`. -/
def reverseFrom (key : String) : List String → Nat → Option String
  | [], _ => none
  | n :: ns, i => if toString i = key then some n else reverseFrom key ns (i + 1)

/-- Property read `E[key]` on the object of a numeric TypeScript enum with the
member names `names`: a member name yields its number, the decimal string of a
member's number yields the member's name, anything else is `undefined`.
(The properties inherited from `Object.prototype` all contain a lowercase
letter.) -/
def enumLookup (names : List String) (key : String) : JsVal :=
  match indexFrom key names 0 with
  | some i => .num i
  | none =>
    match reverseFrom key names 0 with
    | some n => .str n
    | none => .undefined

/-- One element of the `formats` input: a format name or an enum value. -/
inductive FormatInput where
  | name (s : String)
  | value (f : Nat)
  deriving DecidableEq, Repr

/-- Model of `getBarcodeFormatOrFail(format)`: the value the call returns, or
what it throws. -/
def getBarcodeFormatOrFail (format : FormatInput) : Except Thrown JsVal :=
  match format with
  | .name s => .ok (enumLookup BarcodeFormat (toUpperCase (jsTrim s)))
  | .value f => .ok (.num f)

/-- Model of `input.map(f => this.getBarcodeFormatOrFail(f))`: the first throw
aborts the map. -/
def mapFormats : List FormatInput → Except Thrown (List JsVal)
  | [] => .ok []
  | f :: fs =>
    match getBarcodeFormatOrFail f with
    | .error t => .error t
    | .ok v =>
      match mapFormats fs with
      | .error t => .error t
      | .ok vs => .ok (v :: vs)

/-! ## Data model -/

/-- Device descriptor (`MediaDeviceInfo`), as far as the code reads it. -/
structure MediaDeviceInfo where
  deviceId : String
  label : String
  deriving DecidableEq, Repr

/-- A decoded barcode (`Result`); `text` is what `getText()` returns. -/
structure Result where
  text : String
  deriving DecidableEq, Repr

/-- The payload of the scan stream (`ResultAndError`): `{}`, `{ result }` or
`{ error }`. -/
structure ResultAndError where
  result : Option Result
  error : Option JsError
  deriving DecidableEq, Repr

/-- What a stream pushes to its observers. -/
inductive Notification where
  | next (v : ResultAndError)
  | error (e : JsError)
  | complete
  deriving DecidableEq, Repr

/-- State of the subscription the component holds on a stream. -/
inductive Observer where
  | absent
  | active
  | closed
  deriving DecidableEq, Repr

/-- The `scan$` subject of one scan (rxjs 6 `BehaviorSubject`): its current
value, the `isStopped` flag, `thrownError` (present exactly when `hasError`),
the component's subscription, and the notifications pushed so far. -/
structure ScanSubject where
  value : ResultAndError
  isStopped : Bool
  thrownError : Option JsError
  observer : Observer
  emitted : List Notification
  deriving DecidableEq, Repr

/-- One decode loop of the engine, created when `decodeFromVideoDevice`
resolves: the device it reads, whether its controls offer `switchTorch`, and
how often its own `stop()` was invoked. -/
structure DecodeLoop where
  deviceId : Option String
  hasTorch : Bool
  stops : Nat
  deriving DecidableEq, Repr

/-- The object stored in `scannerControls`: the engine's controls `ctrls` of
loop `loop` with `stop()` replaced by `ctrls.stop(); scan$.complete()` for the
stream `stream`. -/
structure Controls where
  loop : Nat
  stream : Nat
  deriving DecidableEq, Repr

/-- The decode hints the component manages. -/
structure Hints where
  possibleFormats : Option (List JsVal)
  tryHarder : Bool
  deriving DecidableEq, Repr

/-- A `BrowserMultiFormatContinuousReader` instance. -/
structure Reader where
  hints : Hints
  setHintsCalls : Nat
  scannerControls : Option Controls
  deriving DecidableEq, Repr

/-- The values the component's event emitters are called with. -/
inductive Event where
  | autostarted
  | autostarting (state : Bool)
  | torchCompatible (b : Bool)
  | scanSuccess (text : String)
  | scanFailure (reason : Option JsError)
  | scanError (e : JsError)
  | scanComplete (result : Option Result)
  | camerasFound (devices : List MediaDeviceInfo)
  | camerasNotFound (e : Option JsError)
  | permissionResponse (p : Option Bool)
  | permissionResponseError (e : JsError)
  | hasDevices (v : Option Bool)
  | deviceChange (d : Option MediaDeviceInfo)
  deriving DecidableEq, Repr

/-- What the program does to the outside, in the order it does it. -/
inductive Action where
  | emit (e : Event)
  | decodeFromVideoDevice (reader stream : Nat) (deviceId : Option String)
  | loopStarted (loop : Nat)
  | loopStop (loop : Nat)
  | unsubscribe (stream : Nat)
  | cleanVideoSource
  | getUserMedia
  | trackStop
  | videoTrackStop
  | listVideoInputDevices
  | unhandledRejection (t : Thrown)
  deriving DecidableEq, Repr

/-- Store update. -/
def upd {α : Type} (f : Nat → α) (i : Nat) (v : α) : Nat → α :=
  fun j => if j = i then v else f j

/-- The whole state: the stores of engine loops, streams and readers, the
fields of the one `ZXingScannerComponent` instance, the `srcObject` of the
preview element as the component itself reads and clears it (a stream with so
many tracks; what the engine attaches and detaches on its own is not
modelled), and the trace of actions. -/
structure World where
  loops : Nat → DecodeLoop
  nextLoop : Nat
  streams : Nat → ScanSubject
  nextStream : Nat
  readers : Nat → Reader
  nextReader : Nat
  _ready : Bool
  _enabled : Bool
  autostart : Bool
  _hints : Hints
  _device : Option MediaDeviceInfo
  _devicePreStart : Option MediaDeviceInfo
  _isAutostarting : Option Bool
  hasPermission : Option (Option Bool)
  _codeReader : Option Nat
  _scanSubscription : Option Nat
  hasNavigator : Bool
  isMediaDevicesSupported : Bool
  permissionResponseStopped : Bool
  videoSrcObject : Option Nat
  trace : List Action

/-- A call's effect: the state it leaves and what it returned or threw. An
`async` function that rejects is a call that threw. -/
structure Outcome (α : Type) where
  world : World
  result : Except Thrown α

/-- What the outside answers during one operation: the permission probe
`getUserMedia` (a stream with so many tracks, or an exception), the device
enumeration, and the engine's `decodeFromVideoDevice` (controls, with or
without `switchTorch`, or an exception). -/
structure Env where
  userMedia : Except JsError Nat
  devices : List MediaDeviceInfo
  decode : Except JsError Bool

/-! ## Event emitters and the component's stream callbacks -/

/-- Appends an action to the trace. -/
def act (a : Action) (w : World) : World := { w with trace := w.trace ++ [a] }

/-- Model of `emitter.next(v)` / `emitter.emit(v)` on one of the emitters that
are never stopped. -/
def emit (e : Event) (w : World) : World := act (.emit e) w

/-- Model of `dispatchScanSuccess(result)`. -/
def dispatchScanSuccess (result : Result) (w : World) : World :=
  emit (.scanSuccess result.text) w

/-- Model of `dispatchScanFailure(reason)`. -/
def dispatchScanFailure (reason : Option JsError) (w : World) : World :=
  emit (.scanFailure reason) w

/-- Model of `dispatchScanError(error)` (console output is not modelled). -/
def dispatchScanError (error : JsError) (w : World) : World :=
  emit (.scanError error) w

/-- Model of `dispatchScanComplete(result)`. -/
def dispatchScanComplete (result : Option Result) (w : World) : World :=
  emit (.scanComplete result) w

/-- Model of `_onDecodeError(err)`. -/
def _onDecodeError (err : JsError) (w : World) : World :=
  dispatchScanError err w

/-- Model of `_onDecodeResult(result, error)`. -/
def _onDecodeResult (result : Option Result) (error : Option JsError) (w : World) : World :=
  let w1 :=
    match result with
    | some r => dispatchScanSuccess r w
    | none => dispatchScanFailure error w
  dispatchScanComplete result w1

/-! ## The `scan$` subject (rxjs 6 `BehaviorSubject`)

The only observer a stream ever gets is the one `scanFromDevice` subscribes:
`next` is `_onDecodeResult`, `error` is `_onDecodeError`, `complete` does
nothing. -/

/-- Replaces stream `k`. -/
def setStream (k : Nat) (s : ScanSubject) (w : World) : World :=
  { w with streams := upd w.streams k s }

/-- Model of `new BehaviorSubject({})`. -/
def newSubject : ScanSubject :=
  { value := ⟨none, none⟩, isStopped := false, thrownError := none,
    observer := .absent, emitted := [] }

/-- Model of `scan$.next(v)`: the value is stored; unless the subject is
stopped it is pushed, and a subscribed component handles it. -/
def subjectNext (k : Nat) (v : ResultAndError) (w : World) : World :=
  let s := w.streams k
  if s.isStopped then
    setStream k { s with value := v } w
  else
    let w1 := setStream k { s with value := v, emitted := s.emitted ++ [.next v] } w
    match s.observer with
    | .active => _onDecodeResult v.result v.error w1
    | _ => w1

/-- Model of `scan$.error(e)`: the error is recorded and the subject stopped;
a subject that was not yet stopped pushes the error, and its subscription
closes. -/
def subjectError (k : Nat) (e : JsError) (w : World) : World :=
  let s := w.streams k
  if s.isStopped then
    setStream k { s with thrownError := some e } w
  else
    let obs := match s.observer with
      | .active => Observer.closed
      | o => o
    let w1 := setStream k
      { s with thrownError := some e, isStopped := true, observer := obs,
               emitted := s.emitted ++ [.error e] } w
    match s.observer with
    | .active => _onDecodeError e w1
    | _ => w1

/-- Model of `scan$.complete()`: a subject that was not yet stopped is stopped
and pushes the completion, and its subscription closes. -/
def subjectComplete (k : Nat) (w : World) : World :=
  let s := w.streams k
  if s.isStopped then w
  else
    let obs := match s.observer with
      | .active => Observer.closed
      | o => o
    setStream k { s with isStopped := true, observer := obs,
                         emitted := s.emitted ++ [.complete] } w

/-- Model of `scanStream.subscribe(next, error, complete)`: an errored subject
hands its error to the subscriber, a stopped one completes it, and in both
cases the subscription returned is closed; otherwise the subscriber is
registered and receives the current value. -/
def subscribe (k : Nat) (w : World) : World :=
  let s := w.streams k
  match s.thrownError with
  | some e => _onDecodeError e (setStream k { s with observer := .closed } w)
  | none =>
    if s.isStopped then setStream k { s with observer := .closed } w
    else _onDecodeResult s.value.result s.value.error
      (setStream k { s with observer := .active } w)

/-- Model of `subscription.unsubscribe()`. -/
def unsubscribe (k : Nat) (w : World) : World :=
  let s := w.streams k
  act (.unsubscribe k) (setStream k { s with observer := .closed } w)

/-! ## Continuous-scan adapter (`BrowserMultiFormatContinuousReader`) -/

/-- Model of `getScannerControls()` on reader `r`. -/
def getScannerControls (r : Nat) (w : World) : Except Thrown Controls :=
  match (w.readers r).scannerControls with
  | none => .error (.error ⟨"Error", some "No scanning is running at the time."⟩)
  | some c => .ok c

/-- Assigns `this.scannerControls` of reader `r`. -/
def setScannerControls (r : Nat) (c : Option Controls) (w : World) : World :=
  { w with readers := upd w.readers r { w.readers r with scannerControls := c } }

/-- Model of the engine's `ctrls.stop()` for loop `l`. -/
def engineStop (l : Nat) (w : World) : World :=
  act (.loopStop l)
    { w with loops := upd w.loops l { w.loops l with stops := (w.loops l).stops + 1 } }

/-- Model of the `stop()` of the stored controls: `ctrls.stop(); scan$.complete()`. -/
def controlsStop (c : Controls) (w : World) : World :=
  subjectComplete c.stream (engineStop c.loop w)

/-- The condition of the `if` in the decode callback, evaluated left to right:
the three names short-circuit; otherwise `error.message.includes(...)` is
evaluated and throws when there is no message. -/
def isScanFailure (error : JsError) : Except Thrown Bool :=
  let errorName := error.name
  if errorName = "NotFoundException" ∨ errorName = "ChecksumException" ∨
      errorName = "FormatException" then .ok true
  else
    match error.message with
    | none => .error .typeError
    | some message =>
      .ok (jsIncludes message "No MultiFormat Readers were able to detect the code.")

/-- Model of the callback `(result, error) => ...` that
`scanFromDeviceObservable` hands to `decodeFromVideoDevice`; `r` is the reader
(`this`) and `k` the stream (`scan$`) the closure captured. -/
def decodeCallback (r k : Nat) (result : Option Result) (error : Option JsError)
    (w : World) : Outcome Unit :=
  match error with
  | none => ⟨subjectNext k ⟨result, none⟩ w, .ok ()⟩
  | some error =>
    match isScanFailure error with
    | .error t => ⟨w, .error t⟩
    | .ok true => ⟨subjectNext k ⟨none, some error⟩ w, .ok ()⟩
    | .ok false =>
      let w1 := subjectError k error w
      match (w1.readers r).scannerControls with
      | none => ⟨w1, .error .typeError⟩
      | some c =>
        let w2 := controlsStop c w1
        ⟨setScannerControls r none w2, .ok ()⟩

/-- A scan whose `decodeFromVideoDevice` call has been issued and not yet
settled. -/
structure PendingScan where
  reader : Nat
  stream : Nat
  deviceId : Option String
  deriving DecidableEq, Repr

/-- Model of `scanFromDeviceObservable(deviceId, previewEl)` up to its `yield`:
the subject is created and `decodeFromVideoDevice` is called. -/
def scanFromDeviceObservableBegin (r : Nat) (deviceId : Option String) (w : World) :
    World × PendingScan :=
  let k := w.nextStream
  let w1 := { w with streams := upd w.streams k newSubject, nextStream := k + 1 }
  (act (.decodeFromVideoDevice r k deviceId) w1, ⟨r, k, deviceId⟩)

/-- Model of `scanFromDeviceObservable` from the point where
`decodeFromVideoDevice` settles with `o`: on success the controls are stored,
on an exception the `catch` block runs. The stream returned is `p.stream`. -/
def scanFromDeviceObservableResume (p : PendingScan) (o : Except JsError Bool) (w : World) :
    World :=
  match o with
  | .ok hasTorch =>
    let l := w.nextLoop
    let w1 := { w with loops := upd w.loops l ⟨p.deviceId, hasTorch, 0⟩, nextLoop := l + 1 }
    setScannerControls p.reader (some ⟨l, p.stream⟩) (act (.loopStarted l) w1)
  | .error e =>
    let w1 := subjectError p.stream e w
    let w2 :=
      match (w1.readers p.reader).scannerControls with
      | some c => controlsStop c w1
      | none => w1
    setScannerControls p.reader none w2

/-! ## Scanner component (`ZXingScannerComponent`)

An `async` method is modelled by the run in which every `yield` is answered at
once from the `Env` (the caller awaits it before doing anything else); a call
that is not awaited is run in place and its rejection is dropped. For
`scanFromDevice` and `setDevice` the part before the engine call settles
(`...Begin`) and the part after it (`...Resume`) are separate steps, so that
runs in which something happens in between can be formed as well. -/

/-- An un-awaited call of an `async` method: a rejection goes nowhere. -/
def detach {α : Type} (o : Outcome α) : World :=
  match o.result with
  | .ok _ => o.world
  | .error t => act (.unhandledRejection t) o.world

/-- Model of the setter `set hints(hints)`. -/
def set_hints (hints : Hints) (w : World) : World :=
  let w1 := { w with _hints := hints }
  match w1._codeReader with
  | none => w1
  | some r =>
    let reader := w1.readers r
    let reader1 := { reader with hints := hints, setHintsCalls := reader.setHintsCalls + 1 }
    { w1 with readers := upd w1.readers r reader1 }

/-- The `formats` input: a plain string, or an array of names and enum values. -/
inductive FormatsInput where
  | text (s : String)
  | list (l : List FormatInput)
  deriving DecidableEq, Repr

/-- Model of the setter `set formats(input)`. -/
def set_formats (input : FormatsInput) (w : World) : Outcome Unit :=
  match input with
  | .text _ =>
    ⟨w, .error (.error ⟨"Error", some "Invalid formats, make sure the [formats] input is a binding."⟩)⟩
  | .list l =>
    match mapFormats l with
    | .error t => ⟨w, .error t⟩
    | .ok formats => ⟨set_hints { w._hints with possibleFormats := some formats } w, .ok ()⟩

/-- Model of the setter `set tryHarder(enable)`: the hint is set to `true` or
deleted, then the hints are assigned. -/
def set_tryHarder (enable : Bool) (w : World) : World :=
  set_hints { w._hints with tryHarder := enable } w

/-- Model of the getter `get formats()`. -/
def get_formats (w : World) : Option (List JsVal) := w._hints.possibleFormats

/-- Model of the setter `set isAutostarting(state)`. -/
def set_isAutostarting (state : Bool) (w : World) : World :=
  emit (.autostarting state) { w with _isAutostarting := some state }

/-- Model of `setPermission(hasPermission)`; `permissionResponse` emits only
while it has not been stopped by an earlier `permissionResponse.error`. -/
def setPermission (hasPermission : Option Bool) (w : World) : World :=
  let w1 := { w with hasPermission := some hasPermission }
  if w1.permissionResponseStopped then w1 else emit (.permissionResponse hasPermission) w1

/-- Model of `permissionResponse.error(err)`. -/
def permissionResponseError (err : JsError) (w : World) : World :=
  if w.permissionResponseStopped then w
  else emit (.permissionResponseError err) { w with permissionResponseStopped := true }

/-- Model of `handlePermissionException(err)`; the value is the permission
returned. -/
def handlePermissionException (err : JsError) (w : World) : World × Option Bool :=
  let r : World × Option Bool :=
    if err.name = "NotSupportedError" then
      (emit (.hasDevices none) w, none)
    else if err.name = "NotAllowedError" then
      (emit (.hasDevices (some true)) w, some false)
    else if err.name = "NotFoundError" then
      (emit (.camerasNotFound (some err)) (emit (.hasDevices (some false)) w), none)
    else if err.name = "NotReadableError" then
      (emit (.camerasNotFound (some err)) (emit (.hasDevices (some false)) w), none)
    else
      (w, none)
  let permission := r.2
  (permissionResponseError err (setPermission permission r.1), permission)

/-- Model of `terminateStream(stream)` for a stream with `tracks` tracks. -/
def terminateStream (stream : Option Nat) (w : World) : World :=
  match stream with
  | none => w
  | some tracks => { w with trace := w.trace ++ List.replicate tracks Action.trackStop }

/-- Model of `askForPermission()`. -/
def askForPermission (env : Env) (w : World) : World × Option Bool :=
  if !w.hasNavigator then
    (setPermission none w, none)
  else if !w.isMediaDevicesSupported then
    (setPermission none w, none)
  else
    let w1 := act .getUserMedia w
    match env.userMedia with
    | .error err =>
      let r := handlePermissionException err w1
      (terminateStream none r.1, r.2)
    | .ok tracks =>
      let permission := true
      let w2 := terminateStream (some tracks) w1
      (setPermission (some permission) w2, some permission)

/-- Model of `updateVideoInputDevices()`. -/
def updateVideoInputDevices (env : Env) (w : World) : World × List MediaDeviceInfo :=
  let devices := env.devices
  let hasDevices := decide (devices.length > 0)
  let w1 := act .listVideoInputDevices w
  let w2 := emit (.camerasFound devices) (emit (.hasDevices (some hasDevices)) w1)
  let w3 := if !hasDevices then emit (.camerasNotFound none) w2 else w2
  (w3, devices)

/-- Model of `updateVideoInputDevices()` on the raw answer `listed` of
`BrowserCodeReader.listVideoInputDevices()`, which is `none` when the
enumeration yields nothing: the body of the method from `|| []` on. -/
def updateVideoInputDevicesFrom (listed : Option (List MediaDeviceInfo)) (w : World) :
    World × List MediaDeviceInfo :=
  let devices :=
    match listed with
    | some ds => ds
    | none => []
  let hasDevices := decide (devices.length > 0)
  let w1 := act .listVideoInputDevices w
  let w2 := emit (.camerasFound devices) (emit (.hasDevices (some hasDevices)) w1)
  let w3 := if !hasDevices then emit (.camerasNotFound none) w2 else w2
  (w3, devices)

/-- Model of `isCurrentDevice(device)`. -/
def isCurrentDevice (device : Option MediaDeviceInfo) (w : World) : Bool :=
  decide (device.map (fun d => d.deviceId) = w._device.map (fun d => d.deviceId))

/-- Model of `getCodeReader()`. -/
def getCodeReader (w : World) : World × Nat :=
  match w._codeReader with
  | some r => (w, r)
  | none =>
    let r := w.nextReader
    ({ w with readers := upd w.readers r ⟨w._hints, 0, none⟩, nextReader := r + 1,
              _codeReader := some r }, r)

/-- Model of `scanFromDevice(deviceId)` up to its `yield`. -/
def scanFromDeviceBegin (deviceId : String) (w : World) : World × PendingScan :=
  let rc := getCodeReader w
  scanFromDeviceObservableBegin rc.2 (some deviceId) rc.1

/-- Model of `scanFromDevice(deviceId)` from the point where the engine call of
the pending scan `p` settles with `o`. -/
def scanFromDeviceResume (p : PendingScan) (o : Except JsError Bool) (w : World) :
    Outcome Unit :=
  let w1 := scanFromDeviceObservableResume p o w
  let w2 := subscribe p.stream w1
  let w3 := { w2 with _scanSubscription := some p.stream }
  if (w3.streams p.stream).observer = .closed then ⟨w3, .ok ()⟩
  else
    match getScannerControls p.reader w3 with
    | .error t => ⟨w3, .error t⟩
    | .ok controls =>
      let hasTorchControl := (w3.loops controls.loop).hasTorch
      ⟨emit (.torchCompatible hasTorchControl) w3, .ok ()⟩

/-- Model of `scanFromDevice(deviceId)`. -/
def scanFromDevice (deviceId : String) (env : Env) (w : World) : Outcome Unit :=
  let b := scanFromDeviceBegin deviceId w
  scanFromDeviceResume b.2 env.decode b.1

/-- Model of `scanStop()`. -/
def scanStop (w : World) : Outcome Unit :=
  match w._scanSubscription with
  | none => ⟨emit (.torchCompatible false) w, .ok ()⟩
  | some k =>
    let stopped : Except Thrown World :=
      match w._codeReader with
      | none => .ok w
      | some r =>
        match getScannerControls r w with
        | .error t => .error t
        | .ok c => .ok (controlsStop c w)
    match stopped with
    | .error t => ⟨w, .error t⟩
    | .ok w1 =>
      let w2 := unsubscribe k w1
      let w3 := { w2 with _scanSubscription := none }
      ⟨emit (.torchCompatible false) w3, .ok ()⟩

/-- Model of `BrowserCodeReader.cleanVideoSource(videoElement)` on the preview
element. -/
def cleanVideoSource (w : World) : World :=
  act .cleanVideoSource { w with videoSrcObject := none }

/-- Model of `setDevice(device)` up to the `yield` on `scanFromDevice`; the
value is the scan left pending, if one was started. -/
def setDeviceBegin (device : Option MediaDeviceInfo) (w : World) :
    Outcome (Option PendingScan) :=
  match scanStop w with
  | ⟨w1, .error t⟩ => ⟨w1, .error t⟩
  | ⟨w1, .ok _⟩ =>
    let w2 := { w1 with _device := device }
    match device with
    | none => ⟨cleanVideoSource w2, .ok none⟩
    | some d =>
      if w2._enabled then
        let b := scanFromDeviceBegin d.deviceId w2
        ⟨b.1, .ok (some b.2)⟩
      else ⟨w2, .ok none⟩

/-- Model of `setDevice(device)`. -/
def setDevice (device : Option MediaDeviceInfo) (env : Env) (w : World) : Outcome Unit :=
  match setDeviceBegin device w with
  | ⟨w1, .error t⟩ => ⟨w1, .error t⟩
  | ⟨w1, .ok none⟩ => ⟨w1, .ok ()⟩
  | ⟨w1, .ok (some p)⟩ => scanFromDeviceResume p env.decode w1

/-- Model of the setter `set device(device)`. -/
def set_device (device : Option MediaDeviceInfo) (env : Env) (w : World) : World :=
  if !w._ready then { w with _devicePreStart := device }
  else if w._isAutostarting = some true then w
  else if isCurrentDevice device w then w
  else if w.hasPermission ≠ some (some true) then w
  else detach (setDevice device env w)

/-- Model of `_reset()`; the value is the device returned. -/
def _reset (env : Env) (w : World) : World × Option MediaDeviceInfo :=
  match w._codeReader with
  | none => (w, none)
  | some _ =>
    let device := w._device
    let w1 := set_device none env w
    ({ w1 with _codeReader := none }, device)

/-- Model of `reset()`. -/
def reset (env : Env) (w : World) : World :=
  emit (.deviceChange none) (_reset env w).1

/-- The regular expression of `autostartScanner`, as its alternatives. -/
def rearCameraPattern : List String :=
  ["back", "tr\u00C3\u00A1s", "rear", "traseira", "environment", "ambiente"]

/-- Case folding of the regular expression's `i` flag, exact for comparisons
with the characters of `rearCameraPattern`: ASCII letters, and U+00E3 with
U+00C3. -/
def canonicalize (c : Char) : Char :=
  if c = Char.ofNat 0xE3 then Char.ofNat 0xC3 else c.toUpper

/-- Model of `/alt1|alt2|.../gi.test(label)` on a freshly created expression. -/
def regexTest (alternatives : List String) (label : String) : Bool :=
  alternatives.any fun a =>
    includesChars (a.data.map canonicalize) (label.data.map canonicalize)

/-- Model of `matcher` in `autostartScanner`. -/
def matcher (d : MediaDeviceInfo) : Bool := regexTest rearCameraPattern d.label

/-- Model of `devices.find(matcher) || devices.pop()`. -/
def selectDevice (devices : List MediaDeviceInfo) : Option MediaDeviceInfo :=
  match devices.find? matcher with
  | some d => some d
  | none => devices.getLast?

/-- Model of `autostartScanner(devices)`. -/
def autostartScanner (devices : List MediaDeviceInfo) (env : Env) (w : World) : Outcome Unit :=
  match selectDevice devices with
  | none =>
    ⟨w, .error (.error ⟨"Error", some "Impossible to autostart, no input devices available."⟩)⟩
  | some device =>
    match setDevice (some device) env w with
    | ⟨w1, .error t⟩ => ⟨w1, .error t⟩
    | ⟨w1, .ok _⟩ => ⟨emit (.deviceChange (some device)) w1, .ok ()⟩

/-- Model of `initAutostartOff()`. -/
def initAutostartOff (env : Env) (w : World) : World :=
  let w1 := set_isAutostarting false w
  let w2 := (updateVideoInputDevices env w1).1
  match w2._device, w2._devicePreStart with
  | some _, some pre => detach (setDevice (some pre) env w2)
  | _, _ => w2

/-- Model of `initAutostartOn()`. -/
def initAutostartOn (env : Env) (w : World) : Outcome Unit :=
  let w1 := set_isAutostarting true w
  let r := askForPermission env w1
  let hasPermission := r.2
  let started : Outcome Unit :=
    if hasPermission = some true then
      let rd := updateVideoInputDevices env r.1
      autostartScanner rd.2 env rd.1
    else ⟨r.1, .ok ()⟩
  match started with
  | ⟨w2, .error t⟩ => ⟨w2, .error t⟩
  | ⟨w2, .ok _⟩ => ⟨emit .autostarted (set_isAutostarting false w2), .ok ()⟩

/-- Model of `init()`. -/
def init (env : Env) (w : World) : Outcome Unit :=
  if !w.autostart then
    ⟨{ (initAutostartOff env w) with _ready := true }, .ok ()⟩
  else
    match initAutostartOn env w with
    | ⟨w1, .error t⟩ => ⟨w1, .error t⟩
    | ⟨w1, .ok _⟩ => ⟨{ w1 with _ready := true }, .ok ()⟩

/-- Model of `ngOnInit()`. -/
def ngOnInit (env : Env) (w : World) : World := detach (init env w)

/-- Model of the setter `set enable(enabled)`. -/
def set_enable (enabled : Bool) (env : Env) (w : World) : World :=
  let w1 := { w with _enabled := enabled }
  if !w1._enabled then reset env w1
  else
    match w1._device with
    | some device => detach (scanFromDevice device.deviceId env w1)
    | none => detach (init env w1)

/-- Model of `scanStart()`. -/
def scanStart (env : Env) (w : World) : Outcome Unit :=
  match w._scanSubscription with
  | some _ => ⟨w, .error (.error ⟨"Error", some "There is already a scan proccess running."⟩)⟩
  | none =>
    match w._device with
    | none =>
      ⟨w, .error (.error ⟨"Error", some "No device defined, cannot start scan, please define a device."⟩)⟩
    | some device => ⟨detach (scanFromDevice device.deviceId env w), .ok ()⟩

/-- Model of `restart()`. -/
def restart (env : Env) (w : World) : World :=
  let w1 := { w with _codeReader := none }
  let r := _reset env w1
  match r.2 with
  | none => r.1
  | some prevDevice => set_device (some prevDevice) env r.1

/-- Model of `getAnyVideoDevice()`, awaited:
`navigator.mediaDevices.getUserMedia({ video: true })`. -/
def getAnyVideoDevice (env : Env) (w : World) : Outcome Nat :=
  if !w.hasNavigator then ⟨w, .error .referenceError⟩
  else if !w.isMediaDevicesSupported then ⟨w, .error .typeError⟩
  else
    match env.userMedia with
    | .error err => ⟨act .getUserMedia w, .error (.error err)⟩
    | .ok tracks => ⟨act .getUserMedia w, .ok tracks⟩

/-- Model of `ngOnDestroy()` of
`src/dist/zxing-scanner/esm2015/lib/zxing-scanner.component.js`. -/
def ngOnDestroy (env : Env) (w : World) : Outcome Unit :=
  match getAnyVideoDevice env w with
  | ⟨w1, .error t⟩ => ⟨w1, .error t⟩
  | ⟨w1, .ok tracks⟩ =>
    let w2 := terminateStream (some tracks) w1
    let w3 :=
      match w2.videoSrcObject with
      | some n =>
        { w2 with videoSrcObject := none,
                  trace := w2.trace ++ List.replicate n Action.videoTrackStop }
      | none => w2
    ⟨reset env w3, .ok ()⟩

/-- Model of `ngOnDestroy()` of
`src/zxing-scanner/esm2015/lib/zxing-scanner.component.js`. -/
def ngOnDestroy_zxing_scanner (env : Env) (w : World) : World :=
  reset env w

/-- The component as its constructor leaves it, in a browser that has or lacks
`navigator` and `navigator.mediaDevices`; all stores are empty. -/
def construct (hasNavigator hasMediaDevices : Bool) : World :=
  let w0 : World :=
    { loops := fun _ => ⟨none, false, 0⟩, nextLoop := 0,
      streams := fun _ => newSubject, nextStream := 0,
      readers := fun _ => ⟨⟨none, false⟩, 0, none⟩, nextReader := 0,
      _ready := false, _enabled := true, autostart := true,
      _hints := ⟨none, false⟩, _device := none, _devicePreStart := none,
      _isAutostarting := none, hasPermission := none, _codeReader := none,
      _scanSubscription := none, hasNavigator := hasNavigator,
      isMediaDevicesSupported := hasNavigator && hasMediaDevices,
      permissionResponseStopped := false, videoSrcObject := none, trace := [] }
  (set_formats (.list [.value 11]) w0).world

/-! ## Observations and scenarios used by the theorems -/

/-- The values `hasDevices` was called with, oldest first. -/
def hasDevicesSignals (t : List Action) : List (Option Bool) :=
  t.filterMap fun a =>
    match a with
    | .emit (.hasDevices v) => some v
    | _ => none

/-- The values `camerasNotFound` was called with, oldest first. -/
def camerasNotFoundSignals (t : List Action) : List (Option JsError) :=
  t.filterMap fun a =>
    match a with
    | .emit (.camerasNotFound e) => some e
    | _ => none

/-- The label contains, letter case ignored, one of the terms of the pattern of
`autostartScanner`. -/
def ContainsRearTerm (label : String) : Prop :=
  ∃ t ∈ rearCameraPattern, ∃ pre post : List Char,
    label.data.map canonicalize = pre ++ t.data.map canonicalize ++ post

/-- A camera labelled "Front Camera". -/
def frontCamera : MediaDeviceInfo := ⟨"cam0", "Front Camera"⟩

/-- A camera labelled "Back Camera". -/
def backCamera : MediaDeviceInfo := ⟨"cam1", "Back Camera"⟩

/-- A camera labelled "Side Camera". -/
def sideCamera : MediaDeviceInfo := ⟨"cam2", "Side Camera"⟩

/-- An outside in which the permission probe yields a one-track stream, the
enumeration yields `devices`, and the engine starts decoding. -/
def grantingEnv (devices : List MediaDeviceInfo) : Env := ⟨.ok 1, devices, .ok false⟩

/-- An outside like `grantingEnv` in which the engine's `decodeFromVideoDevice`
throws. -/
def failingEnv (devices : List MediaDeviceInfo) : Env :=
  ⟨.ok 1, devices, .error ⟨"NotReadableError", some "Could not start video source"⟩⟩

/-- A fresh component after `init()` with two cameras: autostart has selected
the back camera and is scanning it. -/
def scanningWorld : World :=
  (init (grantingEnv [frontCamera, backCamera]) (construct true true)).world

/-- The scanning component after the engine reported an error that is not a
scan failure. -/
def haltedWorld : World :=
  (decodeCallback 0 0 none (some ⟨"NotReadableError", some "Could not start video source"⟩)
    scanningWorld).world

/-- A fresh component after an `init()` during which the engine could not
start decoding. -/
def failedStartWorld : World :=
  (init (failingEnv [frontCamera, backCamera]) (construct true true)).world

/-- A fresh component with autostart switched off, after `init()`. -/
def idleWorld : World :=
  (init (grantingEnv [frontCamera, backCamera])
    { construct true true with autostart := false }).world

/-- An outside in which the permission probe is refused. -/
def deniedEnv : Env := ⟨.error ⟨"NotAllowedError", some "Permission denied"⟩, [], .ok false⟩

/-- The scanning component after a later `askForPermission()` was refused. -/
def deniedWorld : World := (askForPermission deniedEnv scanningWorld).1

/-- The scanning component after `restart()`. -/
def restartedWorld : World := restart (grantingEnv []) scanningWorld

/-- The scanning component after the front camera was assigned through the
`device` setter. -/
def frontScanningWorld : World := set_device (some frontCamera) (grantingEnv []) scanningWorld

/-- The scanning component after a second `init()` that found no devices: the
rejected autostart leaves `isAutostarting` set. -/
def stuckAutostartWorld : World := ngOnInit (grantingEnv []) scanningWorld

/-- The hints were applied in place going from `w` to `w1`: the code reader
and the count of readers are the same; a reader that exists has received
`setHints` with the hints now current; when none exists, no reader was touched
and the reader `getCodeReader` creates next is built with the hints now
current. -/
def HintsAppliedInPlace (w w1 : World) : Prop :=
  w1._codeReader = w._codeReader ∧ w1.nextReader = w.nextReader ∧
  (∀ r, w._codeReader = some r →
    (w1.readers r).hints = w1._hints ∧
    (w1.readers r).setHintsCalls = (w.readers r).setHintsCalls + 1 ∧
    (w1.readers r).scannerControls = (w.readers r).scannerControls) ∧
  (w._codeReader = none →
    w1.readers = w.readers ∧
    ((getCodeReader w1).1.readers (getCodeReader w1).2).hints = w1._hints)

/-! ## Lemmas -/

@[simp] theorem upd_same {α : Type} (f : Nat → α) (i : Nat) (v : α) : upd f i v i = v := by
  simp [upd]

theorem upd_other {α : Type} (f : Nat → α) (i j : Nat) (v : α) (h : j ≠ i) :
    upd f i v j = f j := by
  simp [upd, h]

theorem scanStop_frame (w : World) :
    (scanStop w).world._enabled = w._enabled ∧
    (scanStop w).world.nextLoop = w.nextLoop ∧
    (scanStop w).world.nextStream = w.nextStream ∧
    (scanStop w).world.nextReader = w.nextReader ∧
    (scanStop w).world._codeReader = w._codeReader := by
  unfold scanStop
  cases hs : w._scanSubscription with
  | none => simp [emit, act]
  | some k =>
    cases hr : w._codeReader with
    | none => simp [emit, act, unsubscribe, setStream, hr]
    | some r =>
      cases hc : (w.readers r).scannerControls with
      | none => simp [getScannerControls, hc, hr]
      | some c =>
        by_cases hst : (w.streams c.stream).isStopped = true <;>
          simp [getScannerControls, hc, hr, emit, act, unsubscribe, setStream, controlsStop,
            engineStop, subjectComplete, hst]

theorem isScanFailure_soft (e : JsError)
    (h : e.name = "NotFoundException" ∨ e.name = "ChecksumException" ∨
      e.name = "FormatException" ∨
      ∃ m, e.message = some m ∧
        jsIncludes m "No MultiFormat Readers were able to detect the code." = true) :
    isScanFailure e = .ok true := by
  unfold isScanFailure
  by_cases hn : e.name = "NotFoundException" ∨ e.name = "ChecksumException" ∨
      e.name = "FormatException"
  · simp [hn]
  · rcases h with h | h | h | ⟨m, hm, hi⟩
    · exact absurd (Or.inl h) hn
    · exact absurd (Or.inr (Or.inl h)) hn
    · exact absurd (Or.inr (Or.inr h)) hn
    · simp [hn, hm, hi]

theorem isScanFailure_fatal (e : JsError) (m : String)
    (hn : e.name ≠ "NotFoundException" ∧ e.name ≠ "ChecksumException" ∧
      e.name ≠ "FormatException")
    (hm : e.message = some m)
    (hi : jsIncludes m "No MultiFormat Readers were able to detect the code." = false) :
    isScanFailure e = .ok false := by
  simp [isScanFailure, hn.1, hn.2.1, hn.2.2, hm, hi]

/-- On a stream that is still open, an error classified as a scan failure is
pushed as one `{ error }` value; the stream stays open and neither the engine
nor the reader is touched. -/
theorem decodeCallback_soft (r k : Nat) (e : JsError) (w : World)
    (hopen : (w.streams k).isStopped = false) (hsoft : isScanFailure e = .ok true) :
    (decodeCallback r k none (some e) w).result = .ok () ∧
    ((decodeCallback r k none (some e) w).world.streams k).emitted
      = (w.streams k).emitted ++ [.next ⟨none, some e⟩] ∧
    ((decodeCallback r k none (some e) w).world.streams k).isStopped = false ∧
    ((decodeCallback r k none (some e) w).world.streams k).thrownError = (w.streams k).thrownError ∧
    (decodeCallback r k none (some e) w).world.loops = w.loops ∧
    (decodeCallback r k none (some e) w).world.readers = w.readers := by
  cases ho : (w.streams k).observer <;>
    simp [decodeCallback, hsoft, subjectNext, hopen, ho, setStream, _onDecodeResult,
      dispatchScanFailure, dispatchScanComplete, emit, act]

/-- On a stream that is still open, any other error that carries a message
pushes no value: the stream is stopped with exactly that one error
notification added, whether or not controls are held. -/
theorem decodeCallback_fatal (r k : Nat) (e : JsError) (w : World)
    (hopen : (w.streams k).isStopped = false) (hfatal : isScanFailure e = .ok false) :
    ((decodeCallback r k none (some e) w).world.streams k).emitted
      = (w.streams k).emitted ++ [.error e] ∧
    ((decodeCallback r k none (some e) w).world.streams k).isStopped = true ∧
    ((decodeCallback r k none (some e) w).world.streams k).thrownError = some e := by
  cases hc : (w.readers r).scannerControls with
  | none =>
    cases ho : (w.streams k).observer <;>
      simp [decodeCallback, hfatal, subjectError, hopen, ho, setStream, _onDecodeError,
        dispatchScanError, emit, act, hc]
  | some c =>
    by_cases hk : c.stream = k
    · cases ho : (w.streams k).observer <;>
        simp [decodeCallback, hfatal, subjectError, hopen, ho, setStream, _onDecodeError,
          dispatchScanError, emit, act, hc, controlsStop, engineStop, subjectComplete, hk,
          setScannerControls]
    · cases ho : (w.streams k).observer <;>
      by_cases hst : (w.streams c.stream).isStopped = true <;>
        simp [decodeCallback, hfatal, subjectError, hopen, ho, setStream, _onDecodeError,
          dispatchScanError, emit, act, hc, controlsStop, engineStop, subjectComplete, hk,
          setScannerControls, upd_other, hst, Ne.symm hk]

/-! ## Decode callback: classification of errors -/

/-- C1: the decode callback does not classify every error. An error whose name
is none of `NotFoundException`, `ChecksumException`, `FormatException` and that
carries no message makes `error.message.includes(...)` throw a `TypeError`
before anything is done: the state is unchanged, so the stream receives no
notification and is not closed. -/
theorem decodeCallback_messageless_error_throws (r k : Nat) (e : JsError) (w : World)
    (hname : e.name ≠ "NotFoundException" ∧ e.name ≠ "ChecksumException" ∧
      e.name ≠ "FormatException")
    (hmsg : e.message = none) :
    decodeCallback r k none (some e) w = ⟨w, .error .typeError⟩ := by
  simp [decodeCallback, isScanFailure, hname.1, hname.2.1, hname.2.2, hmsg]

/-- Witness for C1: on the component scanning the back camera, whose stream is
open and whose controls are held, a message-less `IllegalArgumentException`
leaves everything as it was and throws. -/
theorem decodeCallback_messageless_error_throws_witness :
    (scanningWorld.streams 0).isStopped = false ∧
    (scanningWorld.streams 0).emitted = [] ∧
    (scanningWorld.readers 0).scannerControls = some ⟨0, 0⟩ ∧
    decodeCallback 0 0 none (some ⟨"IllegalArgumentException", none⟩) scanningWorld
      = ⟨scanningWorld, .error .typeError⟩ :=
  ⟨by decide, by decide, by decide,
    decodeCallback_messageless_error_throws 0 0 ⟨"IllegalArgumentException", none⟩ scanningWorld
      (by decide) rfl⟩

/-! ## Stopping a halted scan -/

/-- C2: `scanStop` throws when a scan subscription exists but the reader no
longer holds controls (after a fatal decode error or a failed start): the
unguarded `getScannerControls()` raises 'No scanning is running at the time.',
nothing is released, and `setDevice` rejects with the same error. The engine's
stop is not invoked again. -/
theorem scanStop_throws_when_halted (w : World) (k r : Nat)
    (hsub : w._scanSubscription = some k) (hreader : w._codeReader = some r)
    (hhalted : (w.readers r).scannerControls = none) :
    scanStop w = ⟨w, .error (.error ⟨"Error", some "No scanning is running at the time."⟩)⟩ ∧
    ∀ device env, setDevice device env w
      = ⟨w, .error (.error ⟨"Error", some "No scanning is running at the time."⟩)⟩ := by
  have h1 : scanStop w
      = ⟨w, .error (.error ⟨"Error", some "No scanning is running at the time."⟩)⟩ := by
    simp [scanStop, hsub, hreader, getScannerControls, hhalted]
  refine ⟨h1, ?_⟩
  intro device env
  simp [setDevice, setDeviceBegin, h1]

/-- Witness for C2: the component halted by a fatal decode error, and the one
whose start failed, both hold a subscription and a reader without controls;
`scanStop` throws on each, and a device assignment on the halted component ends
in an unhandled rejection with the device unchanged. -/
theorem scanStop_throws_when_halted_witness :
    (haltedWorld.loops 0).stops = 1 ∧
    (scanStop haltedWorld).result
      = .error (.error ⟨"Error", some "No scanning is running at the time."⟩) ∧
    (scanStop failedStartWorld).result
      = .error (.error ⟨"Error", some "No scanning is running at the time."⟩) ∧
    (set_device (some frontCamera) (grantingEnv []) haltedWorld)._device = some backCamera ∧
    (set_device (some frontCamera) (grantingEnv []) haltedWorld).trace
      = haltedWorld.trace ++
        [.unhandledRejection (.error ⟨"Error", some "No scanning is running at the time."⟩)] := by
  refine ⟨by decide, ?_, ?_, by decide, by decide⟩
  · rw [(scanStop_throws_when_halted haltedWorld 0 0 (by decide) (by decide) (by decide)).1]
  · rw [(scanStop_throws_when_halted failedStartWorld 0 0 (by decide) (by decide)
      (by decide)).1]

/-! ## One decode loop at a time -/

/-- C3: the `enable` setter starts a scan without stopping the one that runs.
On the component that autostart left scanning the back camera, `enable = true`
calls `decodeFromVideoDevice` again with no engine stop and no unsubscribe:
afterwards two loops are running (neither was ever stopped), the first stream
still has its subscriber, and `_scanSubscription` points to the second. -/
theorem enable_true_starts_second_scan :
    scanningWorld._device = some backCamera ∧
    (scanningWorld.loops 0).stops = 0 ∧ scanningWorld.nextLoop = 1 ∧
    scanningWorld._scanSubscription = some 0 ∧
    (set_enable true (grantingEnv [frontCamera, backCamera]) scanningWorld).trace
      = scanningWorld.trace ++
        [.decodeFromVideoDevice 0 1 (some "cam1"), .loopStarted 1,
         .emit (.scanFailure none), .emit (.scanComplete none),
         .emit (.torchCompatible false)] ∧
    ((set_enable true (grantingEnv [frontCamera, backCamera]) scanningWorld).loops 0).stops = 0 ∧
    ((set_enable true (grantingEnv [frontCamera, backCamera]) scanningWorld).loops 1).stops = 0 ∧
    (set_enable true (grantingEnv [frontCamera, backCamera]) scanningWorld).nextLoop = 2 ∧
    ((set_enable true (grantingEnv [frontCamera, backCamera]) scanningWorld).streams 0).observer
      = .active ∧
    (set_enable true (grantingEnv [frontCamera, backCamera]) scanningWorld)._scanSubscription
      = some 1 := by
  decide

/-! ## Format names -/

theorem indexFrom_none_of_not_mem (key : String) (names : List String) (i : Nat)
    (h : key ∉ names) : indexFrom key names i = none := by
  induction names generalizing i with
  | nil => rfl
  | cons n ns ih =>
    simp only [List.mem_cons, not_or] at h
    have hne : ¬ n = key := fun e => h.1 e.symm
    simp [indexFrom, hne, ih (i + 1) h.2]

/-- C4: `getBarcodeFormatOrFail` never fails. For every name that, trimmed and
upper-cased, is not a member of `BarcodeFormat`, it returns normally a value
that is no enum number, and the `formats` setter stores that value in the
`POSSIBLE_FORMATS` hint. -/
theorem getBarcodeFormatOrFail_unknown_name (s : String)
    (h : toUpperCase (jsTrim s) ∉ BarcodeFormat) :
    ∃ v, getBarcodeFormatOrFail (.name s) = .ok v ∧ (∀ n, v ≠ .num n) ∧
      ∀ w, (set_formats (.list [.name s]) w).result = .ok () ∧
        get_formats (set_formats (.list [.name s]) w).world = some [v] := by
  have hi := indexFrom_none_of_not_mem _ _ 0 h
  refine ⟨enumLookup BarcodeFormat (toUpperCase (jsTrim s)), rfl, ?_, ?_⟩
  · intro n
    unfold enumLookup
    rw [hi]
    cases reverseFrom (toUpperCase (jsTrim s)) BarcodeFormat 0 <;> simp
  · intro w
    cases hc : w._codeReader <;>
      simp [set_formats, mapFormats, getBarcodeFormatOrFail, set_hints, get_formats, hc]

/-- Witness for C4: "not_a_real_format" resolves to `undefined`, and "11" to the
string "QR_CODE". -/
theorem getBarcodeFormatOrFail_unknown_name_witness :
    getBarcodeFormatOrFail (.name "not_a_real_format") = .ok .undefined ∧
    getBarcodeFormatOrFail (.name "11") = .ok (.str "QR_CODE") ∧
    ∃ v, getBarcodeFormatOrFail (.name "not_a_real_format") = .ok v ∧ (∀ n, v ≠ .num n) ∧
      ∀ w, (set_formats (.list [.name "not_a_real_format"]) w).result = .ok () ∧
        get_formats (set_formats (.list [.name "not_a_real_format"]) w).world = some [v] :=
  ⟨by decide, by decide, getBarcodeFormatOrFail_unknown_name "not_a_real_format" (by decide)⟩

theorem dropWhile_append_of_all (p : Char → Bool) (l r : List Char)
    (h : ∀ c ∈ l, p c = true) : (l ++ r).dropWhile p = r.dropWhile p := by
  induction l with
  | nil => rfl
  | cons a l ih =>
    have ha : p a = true := h a (List.mem_cons_self _ _)
    have hl : ∀ c ∈ l, p c = true := fun c hc => h c (List.mem_cons_of_mem _ hc)
    simp [List.dropWhile, ha, ih hl]

theorem dropWhile_of_all (p : Char → Bool) (l : List Char)
    (h : ∀ c ∈ l, p c = true) : l.dropWhile p = [] := by
  have := dropWhile_append_of_all p l [] h
  simpa using this

theorem dropWhile_append_of_none (p : Char → Bool) (l r : List Char)
    (h : ∀ c ∈ l, p c = false) (hr : ∀ c ∈ r, p c = true) :
    ((l ++ r).dropWhile p = l ++ r ∧ l ≠ []) ∨ ((l ++ r).dropWhile p = [] ∧ l = []) := by
  cases l with
  | nil => exact Or.inr ⟨by simpa using dropWhile_of_all p r hr, rfl⟩
  | cons a l =>
    have ha : p a = false := h a (List.mem_cons_self _ _)
    exact Or.inl ⟨by simp [List.dropWhile, ha], by simp⟩

theorem trimChars_surrounded (pre core post : List Char)
    (hpre : ∀ c ∈ pre, isJsWhiteSpace c = true) (hpost : ∀ c ∈ post, isJsWhiteSpace c = true)
    (hcore : ∀ c ∈ core, isJsWhiteSpace c = false) :
    trimChars (pre ++ core ++ post) = core := by
  unfold trimChars
  rw [List.append_assoc, dropWhile_append_of_all _ pre _ hpre]
  cases core with
  | nil =>
    simp [dropWhile_of_all _ post hpost]
  | cons a core =>
    have ha : isJsWhiteSpace a = false := hcore a (List.mem_cons_self _ _)
    have h1 : ((a :: core) ++ post).dropWhile isJsWhiteSpace = (a :: core) ++ post := by
      simp [List.dropWhile, ha]
    rw [h1, List.reverse_append,
      dropWhile_append_of_all _ post.reverse _ (by simpa using hpost)]
    have hrev : ∀ c ∈ (a :: core).reverse, isJsWhiteSpace c = false := by
      intro c hc
      exact hcore c (List.mem_reverse.mp hc)
    rcases dropWhile_append_of_none isJsWhiteSpace (a :: core).reverse [] hrev
        (by simp) with ⟨h2, _⟩ | ⟨_, h2⟩
    · rw [List.append_nil] at h2
      rw [h2, List.reverse_reverse]
    · simp at h2

theorem enumChars_ok :
    ∀ n ∈ BarcodeFormat, ∀ d ∈ n.data,
      d.toUpper = d ∧ d.toLower.toUpper = d ∧ isJsWhiteSpace d = false ∧
      isJsWhiteSpace d.toLower = false := by
  decide

theorem enumIndex_ok :
    ∀ v : Fin BarcodeFormat.length, indexFrom (BarcodeFormat.get v) BarcodeFormat 0 = some v.val := by
  decide

theorem upper_of_sameLetters (core name : List Char)
    (hname : ∀ d ∈ name, d.toUpper = d ∧ d.toLower.toUpper = d ∧ isJsWhiteSpace d = false ∧
      isJsWhiteSpace d.toLower = false)
    (h : List.Forall₂ (fun c d => c = d ∨ c = d.toLower) core name) :
    core.map Char.toUpper = name ∧ ∀ c ∈ core, isJsWhiteSpace c = false := by
  induction h with
  | nil => simp
  | @cons c d cs ds hcd _ ih =>
    have hd := hname d (List.mem_cons_self _ _)
    have ht := ih (fun x hx => hname x (List.mem_cons_of_mem _ hx))
    rcases hcd with rfl | rfl
    · refine ⟨by simp [hd.1, ht.1], ?_⟩
      intro x hx
      rcases List.mem_cons.mp hx with rfl | hx
      · exact hd.2.2.1
      · exact ht.2 x hx
    · refine ⟨by simp [hd.2.1, ht.1], ?_⟩
      intro x hx
      rcases List.mem_cons.mp hx with rfl | hx
      · exact hd.2.2.2
      · exact ht.2 x hx

/-- C5: format-name resolution ignores letter case and surrounding white
space. For the member `n` of `BarcodeFormat` with value `v` and every string
made of white space, then characters that each equal the corresponding
character of `n` or its lower-case form, then white space,
`getBarcodeFormatOrFail` returns `v`; "qr_code", "QR_CODE" and "Qr_Code" all
resolve to the value 11 of `QR_CODE`. -/
theorem getBarcodeFormatOrFail_case_insensitive (v : Nat) (n : String)
    (pre core post : List Char)
    (hn : BarcodeFormat[v]? = some n)
    (hpre : ∀ c ∈ pre, isJsWhiteSpace c = true) (hpost : ∀ c ∈ post, isJsWhiteSpace c = true)
    (hcore : List.Forall₂ (fun c d => c = d ∨ c = d.toLower) core n.data) :
    getBarcodeFormatOrFail (.name ⟨pre ++ core ++ post⟩) = .ok (.num v) ∧
    getBarcodeFormatOrFail (.name "qr_code") = .ok (.num 11) ∧
    getBarcodeFormatOrFail (.name "QR_CODE") = .ok (.num 11) ∧
    getBarcodeFormatOrFail (.name "Qr_Code") = .ok (.num 11) ∧
    BarcodeFormat[11]? = some "QR_CODE" := by
  refine ⟨?_, rfl, rfl, rfl, rfl⟩
  obtain ⟨hv, hget⟩ := List.getElem?_eq_some.mp hn
  have hmem : n ∈ BarcodeFormat := by
    rw [← hget]; exact List.getElem_mem _
  have hu := upper_of_sameLetters core n.data (enumChars_ok n hmem) hcore
  have htrim := trimChars_surrounded pre core post hpre hpost hu.2
  have hidx := enumIndex_ok ⟨v, hv⟩
  have hkey : toUpperCase (jsTrim ⟨pre ++ core ++ post⟩) = n := by
    show (⟨(trimChars (pre ++ core ++ post)).map Char.toUpper⟩ : String) = n
    rw [htrim, hu.1]
  have hidx' : indexFrom n BarcodeFormat 0 = some v := by
    rw [← hget]; exact hidx
  show Except.ok (enumLookup BarcodeFormat (toUpperCase (jsTrim ⟨pre ++ core ++ post⟩))) = _
  rw [hkey]
  simp [enumLookup, hidx']

/-- Witness for C5: " \tQr_cOdE\n" resolves to 11. -/
theorem getBarcodeFormatOrFail_case_insensitive_witness :
    getBarcodeFormatOrFail (.name ⟨" \t".data ++ "Qr_cOdE".data ++ "\n".data⟩) = .ok (.num 11) :=
  (getBarcodeFormatOrFail_case_insensitive 11 "QR_CODE" " \t".data "Qr_cOdE".data "\n".data
    (by rfl) (by decide) (by decide)
    (.cons (Or.inl rfl) (.cons (Or.inr rfl) (.cons (Or.inl rfl) (.cons (Or.inr rfl)
      (.cons (Or.inl rfl) (.cons (Or.inr rfl) (.cons (Or.inl rfl) .nil)))))))).1

/-! ## Changing devices -/

/-- After a `setDevice` that ran through with the engine starting a loop, the
component is subscribed to a fresh open stream and the reader holds the
controls of the fresh loop. -/
theorem setDevice_started (A : MediaDeviceInfo) (env : Env) (t : Bool) (w : World)
    (hen : w._enabled = true) (hstop : (scanStop w).result = .ok ())
    (hdec : env.decode = .ok t) :
    ∃ r,
      (setDevice (some A) env w).result = .ok () ∧
      (setDevice (some A) env w).world._enabled = true ∧
      (setDevice (some A) env w).world._codeReader = some r ∧
      (setDevice (some A) env w).world._scanSubscription = some w.nextStream ∧
      ((setDevice (some A) env w).world.readers r).scannerControls
        = some ⟨w.nextLoop, w.nextStream⟩ ∧
      ((setDevice (some A) env w).world.streams w.nextStream).isStopped = false ∧
      ((setDevice (some A) env w).world.streams w.nextStream).observer = .active ∧
      (setDevice (some A) env w).world.loops w.nextLoop = ⟨some A.deviceId, t, 0⟩ ∧
      (setDevice (some A) env w).world.nextLoop = w.nextLoop + 1 ∧
      (setDevice (some A) env w).world.nextStream = w.nextStream + 1 ∧
      (setDevice (some A) env w).world.trace
        = (scanStop w).world.trace ++
          [.decodeFromVideoDevice r w.nextStream (some A.deviceId), .loopStarted w.nextLoop,
           .emit (.scanFailure none), .emit (.scanComplete none), .emit (.torchCompatible t)] := by
  obtain ⟨f1, f2, f3, f4, f5⟩ := scanStop_frame w
  rcases hs : scanStop w with ⟨ws, res⟩
  rw [hs] at hstop f1 f2 f3 f4 f5
  simp only at hstop f1 f2 f3 f4 f5
  subst hstop
  cases hr : ws._codeReader with
  | none =>
    refine ⟨ws.nextReader, ?_⟩
    simp [setDevice, setDeviceBegin, hs, f1, hen, scanFromDeviceBegin, getCodeReader, hr,
      scanFromDeviceObservableBegin, scanFromDeviceResume, scanFromDeviceObservableResume, hdec,
      act, emit, setScannerControls, subscribe, setStream, newSubject, _onDecodeResult,
      dispatchScanFailure, dispatchScanComplete, getScannerControls, f2, f3]
  | some r =>
    refine ⟨r, ?_⟩
    simp [setDevice, setDeviceBegin, hs, f1, hen, scanFromDeviceBegin, getCodeReader, hr,
      scanFromDeviceObservableBegin, scanFromDeviceResume, scanFromDeviceObservableResume, hdec,
      act, emit, setScannerControls, subscribe, setStream, newSubject, _onDecodeResult,
      dispatchScanFailure, dispatchScanComplete, getScannerControls, f2, f3]

/-- Stopping a scan that is live: the loop of the held controls is stopped, the
stream completed and the subscription released, in that order. -/
theorem scanStop_live (w : World) (k r l : Nat)
    (hsub : w._scanSubscription = some k) (hreader : w._codeReader = some r)
    (hctl : (w.readers r).scannerControls = some ⟨l, k⟩)
    (hopen : (w.streams k).isStopped = false) :
    (scanStop w).result = .ok () ∧
    (scanStop w).world._scanSubscription = none ∧
    ((scanStop w).world.loops l).stops = (w.loops l).stops + 1 ∧
    ((scanStop w).world.streams k).isStopped = true ∧
    ((scanStop w).world.streams k).observer = .closed ∧
    (scanStop w).world.trace
      = w.trace ++ [.loopStop l, .unsubscribe k, .emit (.torchCompatible false)] := by
  cases ho : (w.streams k).observer <;>
    simp [scanStop, hsub, hreader, getScannerControls, hctl, controlsStop, engineStop,
      subjectComplete, hopen, ho, setStream, unsubscribe, act, emit]


/-- A `setDevice` on a component with a live scan: the held loop is stopped,
the stream completed and the subscription released before the engine is
called for the new device. -/
theorem setDevice_after_live (B : MediaDeviceInfo) (env : Env) (w : World) (k r l : Nat)
    (hen : w._enabled = true)
    (hsub : w._scanSubscription = some k) (hreader : w._codeReader = some r)
    (hctl : (w.readers r).scannerControls = some ⟨l, k⟩)
    (hopen : (w.streams k).isStopped = false)
    (hl : l ≠ w.nextLoop) (hk : k ≠ w.nextStream) :
    ∃ rest,
      (setDevice (some B) env w).world.trace
        = w.trace ++ [.loopStop l, .unsubscribe k, .emit (.torchCompatible false),
            .decodeFromVideoDevice r w.nextStream (some B.deviceId)] ++ rest ∧
      (∀ a ∈ rest, a ≠ .loopStarted l) ∧
      (w.loops l).stops + 1 ≤ ((setDevice (some B) env w).world.loops l).stops ∧
      ((setDevice (some B) env w).world.streams k).isStopped = true ∧
      ((setDevice (some B) env w).world.streams k).observer = .closed := by
  cases hd : env.decode with
  | ok t =>
    refine ⟨[.loopStarted w.nextLoop, .emit (.scanFailure none), .emit (.scanComplete none),
      .emit (.torchCompatible t)], ?_⟩
    cases ho : (w.streams k).observer <;>
      simp [setDevice, setDeviceBegin, scanStop, hsub, hreader, getScannerControls, hctl,
        controlsStop, engineStop, subjectComplete, hopen, ho, setStream, unsubscribe, act, emit,
        hen, scanFromDeviceBegin, getCodeReader, scanFromDeviceObservableBegin,
        scanFromDeviceResume, scanFromDeviceObservableResume, hd, setScannerControls, subscribe,
        newSubject, _onDecodeResult, dispatchScanFailure, dispatchScanComplete, upd_other, hl, hk,
        Ne.symm hl, Ne.symm hk]
  | error e =>
    refine ⟨[.loopStop l, .emit (.scanError e)], ?_⟩
    cases ho : (w.streams k).observer <;>
      simp [setDevice, setDeviceBegin, scanStop, hsub, hreader, getScannerControls, hctl,
        controlsStop, engineStop, subjectComplete, hopen, ho, setStream, unsubscribe, act, emit,
        hen, scanFromDeviceBegin, getCodeReader, scanFromDeviceObservableBegin,
        scanFromDeviceResume, scanFromDeviceObservableResume, hd, setScannerControls, subscribe,
        newSubject, _onDecodeError, dispatchScanError, subjectError, upd_other, hl, hk,
        Ne.symm hl, Ne.symm hk]

/-- C6, counterexample: a second `setDevice` made while the first one still
waits for the engine finds no subscription to stop. From the idle component,
`setDevice(front)` and `setDevice(back)` are both begun, then both engine calls
settle: the trace holds no engine stop and no unsubscribe, and both loops are
running. -/
theorem setDevice_overlap_when_interleaved :
    (setDeviceBegin (some frontCamera) idleWorld).result = .ok (some ⟨0, 0, some "cam0"⟩) ∧
    (setDeviceBegin (some backCamera) (setDeviceBegin (some frontCamera) idleWorld).world).result
      = .ok (some ⟨0, 1, some "cam1"⟩) ∧
    (scanFromDeviceResume ⟨0, 1, some "cam1"⟩ (.ok false)
      (scanFromDeviceResume ⟨0, 0, some "cam0"⟩ (.ok false)
        (setDeviceBegin (some backCamera)
          (setDeviceBegin (some frontCamera) idleWorld).world).world).world).world.trace
      = idleWorld.trace ++
        [.emit (.torchCompatible false), .decodeFromVideoDevice 0 0 (some "cam0"),
         .emit (.torchCompatible false), .decodeFromVideoDevice 0 1 (some "cam1"),
         .loopStarted 0, .emit (.scanFailure none), .emit (.scanComplete none),
         .emit (.torchCompatible false),
         .loopStarted 1, .emit (.scanFailure none), .emit (.scanComplete none),
         .emit (.torchCompatible false)] ∧
    ((scanFromDeviceResume ⟨0, 1, some "cam1"⟩ (.ok false)
      (scanFromDeviceResume ⟨0, 0, some "cam0"⟩ (.ok false)
        (setDeviceBegin (some backCamera)
          (setDeviceBegin (some frontCamera) idleWorld).world).world).world).world.loops 0)
      = ⟨some "cam0", false, 0⟩ ∧
    ((scanFromDeviceResume ⟨0, 1, some "cam1"⟩ (.ok false)
      (scanFromDeviceResume ⟨0, 0, some "cam0"⟩ (.ok false)
        (setDeviceBegin (some backCamera)
          (setDeviceBegin (some frontCamera) idleWorld).world).world).world).world.loops 1)
      = ⟨some "cam1", false, 0⟩ := by
  decide

/-- C6, amended: on an enabled component, when `setDevice(A)` has run through
and started a loop for `A`, a following `setDevice(B)` first invokes the stop
of that loop, completes its stream and unsubscribes from it, and only then
calls `decodeFromVideoDevice` for `B`; the loop of `A` is not started again. -/
theorem setDevice_sequential_stops_first (A B : MediaDeviceInfo) (envA envB : Env) (tA : Bool)
    (w : World)
    (hen : w._enabled = true) (hstop : (scanStop w).result = .ok ())
    (hA : envA.decode = .ok tA) :
    ∃ r rest,
      (setDevice (some A) envA w).result = .ok () ∧
      (setDevice (some A) envA w).world.trace
        = (scanStop w).world.trace ++
          [.decodeFromVideoDevice r w.nextStream (some A.deviceId), .loopStarted w.nextLoop,
           .emit (.scanFailure none), .emit (.scanComplete none),
           .emit (.torchCompatible tA)] ∧
      (setDevice (some B) envB (setDevice (some A) envA w).world).world.trace
        = (setDevice (some A) envA w).world.trace ++
          [.loopStop w.nextLoop, .unsubscribe w.nextStream, .emit (.torchCompatible false),
           .decodeFromVideoDevice r (w.nextStream + 1) (some B.deviceId)] ++ rest ∧
      (∀ a ∈ rest, a ≠ .loopStarted w.nextLoop) ∧
      1 ≤ ((setDevice (some B) envB (setDevice (some A) envA w).world).world.loops
            w.nextLoop).stops ∧
      ((setDevice (some B) envB (setDevice (some A) envA w).world).world.streams
            w.nextStream).isStopped = true ∧
      ((setDevice (some B) envB (setDevice (some A) envA w).world).world.streams
            w.nextStream).observer = .closed := by
  obtain ⟨r, h1, h2, h3, h4, h5, h6, _, h8, h9, h10, h11⟩ :=
    setDevice_started A envA tA w hen hstop hA
  obtain ⟨rest, g1, g2, g3, g4, g5⟩ :=
    setDevice_after_live B envB (setDevice (some A) envA w).world w.nextStream r w.nextLoop
      h2 h4 h3 h5 h6 (by rw [h9]; exact Nat.ne_of_lt (Nat.lt_succ_self _))
      (by rw [h10]; exact Nat.ne_of_lt (Nat.lt_succ_self _))
  refine ⟨r, rest, h1, h11, ?_, g2, ?_, g4, g5⟩
  · rw [g1, h10]
  · have := g3
    omega

/-- Witness for C6: `setDevice(front)` then `setDevice(back)` on the idle
component. -/
theorem setDevice_sequential_stops_first_witness :
    ∃ r rest,
      (setDevice (some frontCamera) (grantingEnv []) idleWorld).result = .ok () ∧
      (setDevice (some frontCamera) (grantingEnv []) idleWorld).world.trace
        = (scanStop idleWorld).world.trace ++
          [.decodeFromVideoDevice r idleWorld.nextStream (some frontCamera.deviceId),
           .loopStarted idleWorld.nextLoop,
           .emit (.scanFailure none), .emit (.scanComplete none),
           .emit (.torchCompatible false)] ∧
      (setDevice (some backCamera) (grantingEnv [])
          (setDevice (some frontCamera) (grantingEnv []) idleWorld).world).world.trace
        = (setDevice (some frontCamera) (grantingEnv []) idleWorld).world.trace ++
          [.loopStop idleWorld.nextLoop, .unsubscribe idleWorld.nextStream,
           .emit (.torchCompatible false),
           .decodeFromVideoDevice r (idleWorld.nextStream + 1) (some backCamera.deviceId)]
          ++ rest ∧
      (∀ a ∈ rest, a ≠ .loopStarted idleWorld.nextLoop) ∧
      1 ≤ ((setDevice (some backCamera) (grantingEnv [])
          (setDevice (some frontCamera) (grantingEnv []) idleWorld).world).world.loops
            idleWorld.nextLoop).stops ∧
      ((setDevice (some backCamera) (grantingEnv [])
          (setDevice (some frontCamera) (grantingEnv []) idleWorld).world).world.streams
            idleWorld.nextStream).isStopped = true ∧
      ((setDevice (some backCamera) (grantingEnv [])
          (setDevice (some frontCamera) (grantingEnv []) idleWorld).world).world.streams
            idleWorld.nextStream).observer = .closed :=
  setDevice_sequential_stops_first frontCamera backCamera (grantingEnv []) (grantingEnv []) false
    idleWorld (by decide) (by decide) rfl

/-! ## Permission exceptions -/

/-- C7: `handlePermissionException` follows the table. The value returned is
recorded as `hasPermission` and is never `true`; `NotSupportedError` gives
`null` and `hasDevices` emits `null`; `NotAllowedError` gives `false` and
`hasDevices` emits `true`; `NotFoundError` and `NotReadableError` give `null`,
`hasDevices` emits `false` and `camerasNotFound` emits the exception; any other
name gives `null` and emits neither. -/
theorem handlePermissionException_table (err : JsError) (w : World) :
    (handlePermissionException err w).1.hasPermission = some (handlePermissionException err w).2 ∧
    (handlePermissionException err w).2 ≠ some true ∧
    (err.name = "NotSupportedError" →
      (handlePermissionException err w).2 = none ∧
      hasDevicesSignals (handlePermissionException err w).1.trace
        = hasDevicesSignals w.trace ++ [none] ∧
      camerasNotFoundSignals (handlePermissionException err w).1.trace
        = camerasNotFoundSignals w.trace) ∧
    (err.name = "NotAllowedError" →
      (handlePermissionException err w).2 = some false ∧
      hasDevicesSignals (handlePermissionException err w).1.trace
        = hasDevicesSignals w.trace ++ [some true] ∧
      camerasNotFoundSignals (handlePermissionException err w).1.trace
        = camerasNotFoundSignals w.trace) ∧
    (err.name = "NotFoundError" ∨ err.name = "NotReadableError" →
      (handlePermissionException err w).2 = none ∧
      hasDevicesSignals (handlePermissionException err w).1.trace
        = hasDevicesSignals w.trace ++ [some false] ∧
      camerasNotFoundSignals (handlePermissionException err w).1.trace
        = camerasNotFoundSignals w.trace ++ [some err]) ∧
    (err.name ≠ "NotSupportedError" → err.name ≠ "NotAllowedError" →
      err.name ≠ "NotFoundError" → err.name ≠ "NotReadableError" →
      (handlePermissionException err w).2 = none ∧
      hasDevicesSignals (handlePermissionException err w).1.trace = hasDevicesSignals w.trace ∧
      camerasNotFoundSignals (handlePermissionException err w).1.trace
        = camerasNotFoundSignals w.trace) := by
  cases hs : w.permissionResponseStopped <;>
  by_cases h1 : err.name = "NotSupportedError" <;>
  by_cases h2 : err.name = "NotAllowedError" <;>
  by_cases h3 : err.name = "NotFoundError" <;>
  by_cases h4 : err.name = "NotReadableError" <;>
  simp [handlePermissionException, setPermission, permissionResponseError, h1, h2, h3, h4, hs,
    emit, act, hasDevicesSignals, camerasNotFoundSignals]

/-- Witness for C7: a `NotAllowedError` on a fresh component. -/
theorem handlePermissionException_table_witness :
    (handlePermissionException ⟨"NotAllowedError", some "Permission denied"⟩
      (construct true true)).2 = some false ∧
    hasDevicesSignals (handlePermissionException ⟨"NotAllowedError", some "Permission denied"⟩
      (construct true true)).1.trace = hasDevicesSignals (construct true true).trace ++ [some true] ∧
    camerasNotFoundSignals (handlePermissionException
      ⟨"NotAllowedError", some "Permission denied"⟩ (construct true true)).1.trace
      = camerasNotFoundSignals (construct true true).trace :=
  (handlePermissionException_table ⟨"NotAllowedError", some "Permission denied"⟩
    (construct true true)).2.2.2.1 rfl

/-! ## Autostart -/

theorem startsWith_iff (p h : List Char) :
    startsWith p h = true ↔ ∃ post, h = p ++ post := by
  induction p generalizing h with
  | nil => simp [startsWith]
  | cons a p ih =>
    cases h with
    | nil => simp [startsWith]
    | cons c cs =>
      simp only [startsWith, Bool.and_eq_true, beq_iff_eq, ih, List.cons_append,
        List.cons.injEq]
      constructor
      · rintro ⟨rfl, post, rfl⟩
        exact ⟨post, rfl, rfl⟩
      · rintro ⟨post, rfl, rfl⟩
        exact ⟨rfl, post, rfl⟩

theorem includesChars_iff (needle hay : List Char) :
    includesChars needle hay = true ↔ ∃ pre post, hay = pre ++ needle ++ post := by
  induction hay with
  | nil =>
    simp only [includesChars, startsWith_iff]
    constructor
    · rintro ⟨post, h⟩
      exact ⟨[], post, by simpa using h⟩
    · rintro ⟨pre, post, h⟩
      have h1 : pre ++ needle ++ post = [] := h.symm
      simp only [List.append_eq_nil] at h1
      exact ⟨[], by simp [h1.1.2]⟩
  | cons c cs ih =>
    simp only [includesChars, Bool.or_eq_true, startsWith_iff, ih]
    constructor
    · rintro (⟨post, h⟩ | ⟨pre, post, h⟩)
      · exact ⟨[], post, by simpa using h⟩
      · exact ⟨c :: pre, post, by simp [h]⟩
    · rintro ⟨pre, post, h⟩
      cases pre with
      | nil => exact Or.inl ⟨post, by simpa using h⟩
      | cons a pre =>
        simp only [List.cons_append, List.cons.injEq] at h
        exact Or.inr ⟨pre, post, h.2⟩

theorem matcher_iff (d : MediaDeviceInfo) : matcher d = true ↔ ContainsRearTerm d.label := by
  simp only [matcher, regexTest, List.any_eq_true, includesChars_iff, ContainsRearTerm]

theorem selectDevice_spec (devices : List MediaDeviceInfo) (hne : devices ≠ []) :
    ∃ d, selectDevice devices = some d ∧
      ((ContainsRearTerm d.label ∧
          ∃ pre post, devices = pre ++ d :: post ∧ ∀ x ∈ pre, ¬ ContainsRearTerm x.label) ∨
       ((∀ x ∈ devices, ¬ ContainsRearTerm x.label) ∧ devices.getLast? = some d)) := by
  unfold selectDevice
  cases hf : devices.find? matcher with
  | some d =>
    refine ⟨d, rfl, Or.inl ?_⟩
    obtain ⟨hd, pre, post, hsplit, hpre⟩ := List.find?_eq_some.mp hf
    refine ⟨(matcher_iff d).mp hd, pre, post, hsplit, ?_⟩
    intro x hx hc
    have := hpre x hx
    simp [(matcher_iff x).mpr hc] at this
  | none =>
    refine ⟨devices.getLast hne, List.getLast?_eq_getLast _ hne, Or.inr ⟨?_, ?_⟩⟩
    · intro x hx hc
      exact (List.find?_eq_none.mp hf) x hx ((matcher_iff x).mpr hc)
    · exact List.getLast?_eq_getLast _ hne

/-- A `setDevice` with a device on an enabled component whose previous scan
could be stopped: the device is stored and the engine is called for it. -/
theorem setDevice_enabled (d : MediaDeviceInfo) (env : Env) (w : World)
    (hen : w._enabled = true) (hstop : (scanStop w).result = .ok ()) :
    (setDevice (some d) env w).result = .ok () ∧
    (setDevice (some d) env w).world._device = some d ∧
    ∃ r rest, (setDevice (some d) env w).world.trace
      = (scanStop w).world.trace ++ [.decodeFromVideoDevice r w.nextStream (some d.deviceId)]
        ++ rest := by
  obtain ⟨f1, f2, f3, f4, f5⟩ := scanStop_frame w
  rcases hs : scanStop w with ⟨ws, res⟩
  rw [hs] at hstop f1 f2 f3 f4 f5
  simp only at hstop f1 f2 f3 f4 f5
  subst hstop
  have hen' : ws._enabled = true := by rw [f1]; exact hen
  cases hd : env.decode with
  | ok t =>
    cases hr : ws._codeReader with
    | none =>
      refine ⟨?_, ?_, ws.nextReader, [.loopStarted w.nextLoop, .emit (.scanFailure none),
        .emit (.scanComplete none), .emit (.torchCompatible t)], ?_⟩ <;>
      simp [setDevice, setDeviceBegin, hs, hen', scanFromDeviceBegin, getCodeReader, hr,
        scanFromDeviceObservableBegin, scanFromDeviceResume, scanFromDeviceObservableResume, hd,
        act, emit, setScannerControls, subscribe, setStream, newSubject, _onDecodeResult,
        dispatchScanFailure, dispatchScanComplete, getScannerControls, f2, f3]
    | some r =>
      refine ⟨?_, ?_, r, [.loopStarted w.nextLoop, .emit (.scanFailure none),
        .emit (.scanComplete none), .emit (.torchCompatible t)], ?_⟩ <;>
      simp [setDevice, setDeviceBegin, hs, hen', scanFromDeviceBegin, getCodeReader, hr,
        scanFromDeviceObservableBegin, scanFromDeviceResume, scanFromDeviceObservableResume, hd,
        act, emit, setScannerControls, subscribe, setStream, newSubject, _onDecodeResult,
        dispatchScanFailure, dispatchScanComplete, getScannerControls, f2, f3]
  | error e =>
    cases hr : ws._codeReader with
    | none =>
      refine ⟨?_, ?_, ws.nextReader, [.emit (.scanError e)], ?_⟩ <;>
      simp [setDevice, setDeviceBegin, hs, hen', scanFromDeviceBegin, getCodeReader, hr,
        scanFromDeviceObservableBegin, scanFromDeviceResume, scanFromDeviceObservableResume, hd,
        act, emit, setScannerControls, subscribe, setStream, newSubject, _onDecodeError,
        dispatchScanError, subjectError, getScannerControls, f2, f3]
    | some r =>
      cases hc : (ws.readers r).scannerControls with
      | none =>
        refine ⟨?_, ?_, r, [.emit (.scanError e)], ?_⟩ <;>
        simp [setDevice, setDeviceBegin, hs, hen', scanFromDeviceBegin, getCodeReader, hr,
          scanFromDeviceObservableBegin, scanFromDeviceResume, scanFromDeviceObservableResume,
          hd, act, emit, setScannerControls, subscribe, setStream, newSubject, _onDecodeError,
          dispatchScanError, subjectError, getScannerControls, f2, f3, hc]
      | some c =>
        by_cases hk : c.stream = w.nextStream
        · refine ⟨?_, ?_, r, [.loopStop c.loop, .emit (.scanError e)], ?_⟩ <;>
          simp [setDevice, setDeviceBegin, hs, hen', scanFromDeviceBegin, getCodeReader, hr,
            scanFromDeviceObservableBegin, scanFromDeviceResume, scanFromDeviceObservableResume,
            hd, act, emit, setScannerControls, subscribe, setStream, newSubject, _onDecodeError,
            dispatchScanError, subjectError, getScannerControls, f2, f3, hc, controlsStop,
            engineStop, subjectComplete, hk]
        · by_cases hst : (ws.streams c.stream).isStopped = true
          · refine ⟨?_, ?_, r, [.loopStop c.loop, .emit (.scanError e)], ?_⟩ <;>
            simp [setDevice, setDeviceBegin, hs, hen', scanFromDeviceBegin, getCodeReader, hr,
              scanFromDeviceObservableBegin, scanFromDeviceResume,
              scanFromDeviceObservableResume, hd, act, emit, setScannerControls, subscribe,
              setStream, newSubject, _onDecodeError, dispatchScanError, subjectError,
              getScannerControls, f2, f3, hc, controlsStop, engineStop, subjectComplete, hk,
              upd_other, hst, Ne.symm hk]
          · refine ⟨?_, ?_, r, [.loopStop c.loop, .emit (.scanError e)], ?_⟩ <;>
            simp [setDevice, setDeviceBegin, hs, hen', scanFromDeviceBegin, getCodeReader, hr,
              scanFromDeviceObservableBegin, scanFromDeviceResume,
              scanFromDeviceObservableResume, hd, act, emit, setScannerControls, subscribe,
              setStream, newSubject, _onDecodeError, dispatchScanError, subjectError,
              getScannerControls, f2, f3, hc, controlsStop, engineStop, subjectComplete, hk,
              upd_other, hst, Ne.symm hk]

/-- A `setDevice` with a device on a disabled component whose previous scan
could be stopped: the device is stored and nothing else happens. -/
theorem setDevice_disabled (d : MediaDeviceInfo) (env : Env) (w : World)
    (hen : w._enabled = false) (hstop : (scanStop w).result = .ok ()) :
    (setDevice (some d) env w).result = .ok () ∧
    (setDevice (some d) env w).world._device = some d ∧
    (setDevice (some d) env w).world.trace = (scanStop w).world.trace := by
  obtain ⟨f1, _⟩ := scanStop_frame w
  rcases hs : scanStop w with ⟨ws, res⟩
  rw [hs] at hstop f1
  simp only at hstop f1
  subst hstop
  have hen' : ws._enabled = false := by rw [f1]; exact hen
  simp [setDevice, setDeviceBegin, hs, hen']

/-- C8, counterexample: on a component that was disabled before `init()`,
autostart selects the back camera and `deviceChange` emits it, but the engine
is never called: no scan is started on the selected device. -/
theorem autostart_disabled_component_no_scan :
    (init (grantingEnv [frontCamera, backCamera])
      (set_enable false (grantingEnv []) (construct true true))).world._device
      = some backCamera ∧
    (init (grantingEnv [frontCamera, backCamera])
      (set_enable false (grantingEnv []) (construct true true))).world.nextLoop = 0 ∧
    (init (grantingEnv [frontCamera, backCamera])
      (set_enable false (grantingEnv []) (construct true true))).world.trace
      = [.emit (.deviceChange none), .emit (.autostarting true), .getUserMedia, .trackStop,
         .emit (.permissionResponse (some true)), .listVideoInputDevices,
         .emit (.hasDevices (some true)), .emit (.camerasFound [frontCamera, backCamera]),
         .emit (.torchCompatible false), .emit (.deviceChange (some backCamera)),
         .emit (.autostarting false), .emit .autostarted] := by
  decide

/-- C8, amended: for every non-empty device list, autostart selects the first
device whose label contains, letter case ignored, one of the terms of the
pattern, and the last device when no label does; provided stopping the
previous scan does not throw, the selected device becomes the current device
and `deviceChange` emits it last, and `decodeFromVideoDevice` is called for
the selected device when the component is enabled, while nothing is started
when it is disabled. With the labels "Front Camera", "Back Camera" the back
camera is selected, with "Front Camera", "Side Camera" the side camera. -/
theorem autostartScanner_selects (devices : List MediaDeviceInfo) (env : Env) (w : World)
    (hne : devices ≠ []) (hstop : (scanStop w).result = .ok ()) :
    (∃ d, selectDevice devices = some d ∧
      ((ContainsRearTerm d.label ∧
          ∃ pre post, devices = pre ++ d :: post ∧ ∀ x ∈ pre, ¬ ContainsRearTerm x.label) ∨
       ((∀ x ∈ devices, ¬ ContainsRearTerm x.label) ∧ devices.getLast? = some d)) ∧
      (autostartScanner devices env w).result = .ok () ∧
      (autostartScanner devices env w).world._device = some d ∧
      (w._enabled = true →
        ∃ r rest, (autostartScanner devices env w).world.trace
          = (scanStop w).world.trace ++
            [.decodeFromVideoDevice r w.nextStream (some d.deviceId)] ++ rest ++
            [.emit (.deviceChange (some d))]) ∧
      (w._enabled = false →
        (autostartScanner devices env w).world.trace
          = (scanStop w).world.trace ++ [.emit (.deviceChange (some d))])) ∧
    selectDevice [frontCamera, backCamera] = some backCamera ∧
    selectDevice [frontCamera, sideCamera] = some sideCamera := by
  refine ⟨?_, by decide, by decide⟩
  obtain ⟨d, hsel, hchar⟩ := selectDevice_spec devices hne
  refine ⟨d, hsel, hchar, ?_⟩
  cases hen : w._enabled with
  | true =>
    obtain ⟨h1, h2, r, rest, h3⟩ := setDevice_enabled d env w hen hstop
    rcases hs : setDevice (some d) env w with ⟨w1, res⟩
    rw [hs] at h1 h2 h3
    simp only at h1 h2 h3
    subst h1
    refine ⟨?_, ?_, ?_, ?_⟩
    · simp [autostartScanner, hsel, hs]
    · simp [autostartScanner, hsel, hs, emit, act, h2]
    · intro _
      exact ⟨r, rest, by simp [autostartScanner, hsel, hs, emit, act, h3]⟩
    · intro h
      cases h
  | false =>
    obtain ⟨h1, h2, h3⟩ := setDevice_disabled d env w hen hstop
    rcases hs : setDevice (some d) env w with ⟨w1, res⟩
    rw [hs] at h1 h2 h3
    simp only at h1 h2 h3
    subst h1
    refine ⟨?_, ?_, ?_, ?_⟩
    · simp [autostartScanner, hsel, hs]
    · simp [autostartScanner, hsel, hs, emit, act, h2]
    · intro h
      cases h
    · intro _
      simp [autostartScanner, hsel, hs, emit, act, h3]

/-- Witness for C8: autostart on a fresh component with the front and the back
camera; after `init()` the back camera is current and the engine was called
for it. -/
theorem autostartScanner_selects_witness :
    (∃ d, selectDevice [frontCamera, backCamera] = some d ∧
      (autostartScanner [frontCamera, backCamera] (grantingEnv [frontCamera, backCamera])
        (construct true true)).world._device = some d) ∧
    scanningWorld._device = some backCamera ∧
    Action.decodeFromVideoDevice 0 0 (some "cam1") ∈ scanningWorld.trace ∧
    scanningWorld.trace.getLast? = some (.emit .autostarted) :=
  ⟨match (autostartScanner_selects [frontCamera, backCamera]
      (grantingEnv [frontCamera, backCamera]) (construct true true)
      (by decide) (by decide)).1 with
    | ⟨d, h1, _, _, h4, _⟩ => ⟨d, h1, h4⟩,
   by decide, by decide, by decide⟩

/-! ## Devices set before readiness, and rejected assignments -/

/-- C9: with autostart off, a device assigned before the component is ready is
stored in `_devicePreStart` and not applied by `init()`: `initAutostartOff`
applies it only if a current device already exists. On a component that has
no current device, `init()` completes with `_ready = true`, no current device,
and nothing but the device enumeration done. -/
theorem preStart_device_not_applied (D : MediaDeviceInfo) (env env' : Env) (w : World)
    (hready : w._ready = false) (hauto : w.autostart = false) (hdev : w._device = none) :
    (init env' (set_device (some D) env w)).result = .ok () ∧
    (init env' (set_device (some D) env w)).world._ready = true ∧
    (init env' (set_device (some D) env w)).world._devicePreStart = some D ∧
    (init env' (set_device (some D) env w)).world._device = none ∧
    (init env' (set_device (some D) env w)).world._scanSubscription = w._scanSubscription ∧
    (init env' (set_device (some D) env w)).world.trace
      = w.trace ++ [.emit (.autostarting false), .listVideoInputDevices,
          .emit (.hasDevices (some (decide (env'.devices.length > 0)))),
          .emit (.camerasFound env'.devices)]
        ++ (if env'.devices.length > 0 then [] else [.emit (.camerasNotFound none)]) := by
  by_cases hd : env'.devices.length > 0 <;>
  simp [init, set_device, hready, hauto, hdev, initAutostartOff, set_isAutostarting,
    updateVideoInputDevices, emit, act, hd]

/-- Witness for C9: a fresh component with autostart off, the back camera
assigned before `init()`. -/
theorem preStart_device_not_applied_witness :
    (init (grantingEnv [frontCamera])
      (set_device (some backCamera) (grantingEnv [frontCamera])
        { construct true true with autostart := false })).world._device = none :=
  (preStart_device_not_applied backCamera (grantingEnv [frontCamera]) (grantingEnv [frontCamera])
    { construct true true with autostart := false } (by decide) (by decide) (by decide)).2.2.2.1

/-- C10: on a ready component the `device` setter changes nothing (the whole
state, trace included, is as before: no scan stopped or started) whenever
autostart is in progress, or the given device has the `deviceId` of the current
device, or the permission is still unknown (unset or `null`). -/
theorem set_device_noop (device : Option MediaDeviceInfo) (env : Env) (w : World)
    (hready : w._ready = true)
    (h : w._isAutostarting = some true ∨
      (∃ d c, device = some d ∧ w._device = some c ∧ d.deviceId = c.deviceId) ∨
      w.hasPermission = none ∨ w.hasPermission = some none) :
    set_device device env w = w := by
  unfold set_device
  simp only [hready, Bool.not_true, Bool.false_eq_true, if_false]
  rcases h with h | ⟨d, c, hd, hc, hdc⟩ | h | h
  · simp [h]
  · by_cases ha : w._isAutostarting = some true
    · simp [ha]
    · simp [ha, isCurrentDevice, hd, hc, hdc]
  · by_cases ha : w._isAutostarting = some true
    · simp [ha]
    · by_cases hc : isCurrentDevice device w = true
      · simp [ha, hc]
      · simp [ha, hc, h]
  · by_cases ha : w._isAutostarting = some true
    · simp [ha]
    · by_cases hc : isCurrentDevice device w = true
      · simp [ha, hc]
      · simp [ha, hc, h]

/-- Witness for C10: assigning the back camera again on the component that is
scanning it. -/
theorem set_device_noop_witness :
    set_device (some backCamera) (grantingEnv []) scanningWorld = scanningWorld :=
  set_device_noop (some backCamera) (grantingEnv []) scanningWorld (by decide)
    (Or.inr (Or.inl ⟨backCamera, backCamera, rfl, by decide, rfl⟩))

/-! ## `setDevice`, `enable` and `restart` on a component that scans -/

/-- The engine is called for the device `scanFromDevice` is given, whatever the
state, and the current device is left alone. -/
theorem scanFromDevice_calls_engine (deviceId : String) (env : Env) (w : World) :
    (scanFromDevice deviceId env w).result = .ok () ∧
    (scanFromDevice deviceId env w).world._device = w._device ∧
    ∃ r rest, (scanFromDevice deviceId env w).world.trace
      = w.trace ++ [.decodeFromVideoDevice r w.nextStream (some deviceId)] ++ rest := by
  cases hd : env.decode with
  | ok t =>
    cases hr : w._codeReader with
    | none =>
      refine ⟨?_, ?_, w.nextReader, [.loopStarted w.nextLoop, .emit (.scanFailure none),
        .emit (.scanComplete none), .emit (.torchCompatible t)], ?_⟩ <;>
      simp [scanFromDevice, scanFromDeviceBegin, getCodeReader, hr,
        scanFromDeviceObservableBegin, scanFromDeviceResume, scanFromDeviceObservableResume, hd,
        act, emit, setScannerControls, subscribe, setStream, newSubject, _onDecodeResult,
        dispatchScanFailure, dispatchScanComplete, getScannerControls]
    | some r =>
      refine ⟨?_, ?_, r, [.loopStarted w.nextLoop, .emit (.scanFailure none),
        .emit (.scanComplete none), .emit (.torchCompatible t)], ?_⟩ <;>
      simp [scanFromDevice, scanFromDeviceBegin, getCodeReader, hr,
        scanFromDeviceObservableBegin, scanFromDeviceResume, scanFromDeviceObservableResume, hd,
        act, emit, setScannerControls, subscribe, setStream, newSubject, _onDecodeResult,
        dispatchScanFailure, dispatchScanComplete, getScannerControls]
  | error e =>
    cases hr : w._codeReader with
    | none =>
      refine ⟨?_, ?_, w.nextReader, [.emit (.scanError e)], ?_⟩ <;>
      simp [scanFromDevice, scanFromDeviceBegin, getCodeReader, hr,
        scanFromDeviceObservableBegin, scanFromDeviceResume, scanFromDeviceObservableResume, hd,
        act, emit, setScannerControls, subscribe, setStream, newSubject, _onDecodeError,
        dispatchScanError, subjectError, getScannerControls]
    | some r =>
      cases hc : (w.readers r).scannerControls with
      | none =>
        refine ⟨?_, ?_, r, [.emit (.scanError e)], ?_⟩ <;>
        simp [scanFromDevice, scanFromDeviceBegin, getCodeReader, hr,
          scanFromDeviceObservableBegin, scanFromDeviceResume, scanFromDeviceObservableResume,
          hd, act, emit, setScannerControls, subscribe, setStream, newSubject, _onDecodeError,
          dispatchScanError, subjectError, getScannerControls, hc]
      | some c =>
        by_cases hk : c.stream = w.nextStream
        · refine ⟨?_, ?_, r, [.loopStop c.loop, .emit (.scanError e)], ?_⟩ <;>
          simp [scanFromDevice, scanFromDeviceBegin, getCodeReader, hr,
            scanFromDeviceObservableBegin, scanFromDeviceResume, scanFromDeviceObservableResume,
            hd, act, emit, setScannerControls, subscribe, setStream, newSubject, _onDecodeError,
            dispatchScanError, subjectError, getScannerControls, hc, controlsStop,
            engineStop, subjectComplete, hk]
        · by_cases hst : (w.streams c.stream).isStopped = true <;>
          refine ⟨?_, ?_, r, [.loopStop c.loop, .emit (.scanError e)], ?_⟩ <;>
          simp [scanFromDevice, scanFromDeviceBegin, getCodeReader, hr,
            scanFromDeviceObservableBegin, scanFromDeviceResume,
            scanFromDeviceObservableResume, hd, act, emit, setScannerControls, subscribe,
            setStream, newSubject, _onDecodeError, dispatchScanError, subjectError,
            getScannerControls, hc, controlsStop, engineStop, subjectComplete, hk,
            upd_other, hst, Ne.symm hk]

/-- A `setDevice` without a device, when the previous scan could be stopped:
the current device is unset, the preview element's source is cleaned, and the
engine is not called. -/
theorem setDevice_cleared (env : Env) (w : World) (hstop : (scanStop w).result = .ok ()) :
    (setDevice none env w).result = .ok () ∧
    (setDevice none env w).world._device = none ∧
    (setDevice none env w).world.videoSrcObject = none ∧
    (setDevice none env w).world.trace = (scanStop w).world.trace ++ [.cleanVideoSource] := by
  rcases hs : scanStop w with ⟨ws, res⟩
  rw [hs] at hstop
  simp only at hstop
  subst hstop
  simp [setDevice, setDeviceBegin, hs, cleanVideoSource, act]

/-- C11: `setDevice` does not stop every active scan. When the component holds
a subscription but no code reader (as `restart()` leaves it), `scanStop` only
unsubscribes: the engine's stop is not invoked, and after `setDevice` every
loop that existed is as it was. -/
theorem setDevice_without_reader_leaves_loop (device : Option MediaDeviceInfo) (env : Env)
    (w : World) (k : Nat)
    (hsub : w._scanSubscription = some k) (hreader : w._codeReader = none) :
    (scanStop w).result = .ok () ∧
    (scanStop w).world.loops = w.loops ∧
    (scanStop w).world.trace = w.trace ++ [.unsubscribe k, .emit (.torchCompatible false)] ∧
    (setDevice device env w).result = .ok () ∧
    (setDevice device env w).world._device = device ∧
    ∀ l, l ≠ w.nextLoop → (setDevice device env w).world.loops l = w.loops l := by
  refine ⟨?_, ?_, ?_, ?_⟩
  · simp [scanStop, hsub, hreader]
  · simp [scanStop, hsub, hreader, unsubscribe, setStream, emit, act]
  · simp [scanStop, hsub, hreader, unsubscribe, setStream, emit, act]
  · cases device with
    | none =>
      simp [setDevice, setDeviceBegin, scanStop, hsub, hreader, unsubscribe, setStream, emit,
        act, cleanVideoSource]
    | some d =>
      cases hen : w._enabled with
      | false =>
        simp [setDevice, setDeviceBegin, scanStop, hsub, hreader, unsubscribe, setStream,
          emit, act, hen]
      | true =>
        cases hd : env.decode with
        | ok t =>
          refine ⟨?_, ?_, ?_⟩
          · simp [setDevice, setDeviceBegin, scanStop, hsub, hreader, unsubscribe, setStream,
              emit, act, hen, scanFromDeviceBegin, getCodeReader, scanFromDeviceObservableBegin,
              scanFromDeviceResume, scanFromDeviceObservableResume, hd, setScannerControls,
              subscribe, newSubject, _onDecodeResult, dispatchScanFailure, dispatchScanComplete,
              getScannerControls]
          · simp [setDevice, setDeviceBegin, scanStop, hsub, hreader, unsubscribe, setStream,
              emit, act, hen, scanFromDeviceBegin, getCodeReader, scanFromDeviceObservableBegin,
              scanFromDeviceResume, scanFromDeviceObservableResume, hd, setScannerControls,
              subscribe, newSubject, _onDecodeResult, dispatchScanFailure, dispatchScanComplete,
              getScannerControls]
          · intro l hl
            simp [setDevice, setDeviceBegin, scanStop, hsub, hreader, unsubscribe, setStream,
              emit, act, hen, scanFromDeviceBegin, getCodeReader, scanFromDeviceObservableBegin,
              scanFromDeviceResume, scanFromDeviceObservableResume, hd, setScannerControls,
              subscribe, newSubject, _onDecodeResult, dispatchScanFailure, dispatchScanComplete,
              getScannerControls, upd_other, hl]
        | error e =>
          refine ⟨?_, ?_, ?_⟩
          · simp [setDevice, setDeviceBegin, scanStop, hsub, hreader, unsubscribe, setStream,
              emit, act, hen, scanFromDeviceBegin, getCodeReader, scanFromDeviceObservableBegin,
              scanFromDeviceResume, scanFromDeviceObservableResume, hd, setScannerControls,
              subscribe, newSubject, _onDecodeError, dispatchScanError, subjectError,
              getScannerControls]
          · simp [setDevice, setDeviceBegin, scanStop, hsub, hreader, unsubscribe, setStream,
              emit, act, hen, scanFromDeviceBegin, getCodeReader, scanFromDeviceObservableBegin,
              scanFromDeviceResume, scanFromDeviceObservableResume, hd, setScannerControls,
              subscribe, newSubject, _onDecodeError, dispatchScanError, subjectError,
              getScannerControls]
          · intro l _
            simp [setDevice, setDeviceBegin, scanStop, hsub, hreader, unsubscribe, setStream,
              emit, act, hen, scanFromDeviceBegin, getCodeReader, scanFromDeviceObservableBegin,
              scanFromDeviceResume, scanFromDeviceObservableResume, hd, setScannerControls,
              subscribe, newSubject, _onDecodeError, dispatchScanError, subjectError,
              getScannerControls]

/-- Witness for C11: after `restart()` on the component scanning the back
camera, `setDevice(front)` starts a loop on the front camera while the loop on
the back camera was never stopped; and on the halted component `setDevice`
rejects and leaves the back camera current. -/
theorem setDevice_without_reader_leaves_loop_witness :
    (scanningWorld.loops 0) = ⟨some "cam1", false, 0⟩ ∧
    restartedWorld._scanSubscription = some 0 ∧
    ((setDevice (some frontCamera) (grantingEnv []) restartedWorld).world.loops 0)
      = ⟨some "cam1", false, 0⟩ ∧
    ((setDevice (some frontCamera) (grantingEnv []) restartedWorld).world.loops 1)
      = ⟨some "cam0", false, 0⟩ ∧
    (setDevice (some frontCamera) (grantingEnv []) restartedWorld).world.trace
      = scanningWorld.trace ++
        [.unsubscribe 0, .emit (.torchCompatible false),
         .decodeFromVideoDevice 1 1 (some "cam0"), .loopStarted 1,
         .emit (.scanFailure none), .emit (.scanComplete none),
         .emit (.torchCompatible false)] ∧
    (setDevice (some frontCamera) (grantingEnv []) haltedWorld).world._device
      = some backCamera := by
  refine ⟨by decide, by decide, ?_, by decide, by decide, by decide⟩
  rw [(setDevice_without_reader_leaves_loop (some frontCamera) (grantingEnv []) restartedWorld 0
    (by decide) (by decide)).2.2.2.2.2 0 (by decide)]
  decide

/-- C12: setting `enable` to false does not stop the scan in every state. With
a code reader held, whenever the component is not ready, or autostart is in
progress, or the recorded permission is not `true`, the `device` setter that
`_reset` goes through rejects the assignment: the current device, the
subscription, every engine loop and every stream are as before; only the code
reader is dropped and `deviceChange` emits `null`. -/
theorem set_enable_false_blocked (env : Env) (w : World) (r : Nat)
    (hreader : w._codeReader = some r)
    (hguard : w._ready = false ∨ w._isAutostarting = some true ∨
      w.hasPermission ≠ some (some true)) :
    (set_enable false env w)._device = w._device ∧
    (set_enable false env w)._scanSubscription = w._scanSubscription ∧
    (set_enable false env w).loops = w.loops ∧
    (set_enable false env w).streams = w.streams ∧
    (set_enable false env w)._codeReader = none ∧
    (set_enable false env w).trace = w.trace ++ [.emit (.deviceChange none)] := by
  by_cases h1 : w._ready = true
  · by_cases h2 : w._isAutostarting = some true
    · simp [set_enable, reset, _reset, hreader, set_device, h1, h2, emit, act]
    · have h4 : w.hasPermission ≠ some (some true) := by
        rcases hguard with h | h | h
        · rw [h1] at h; cases h
        · exact absurd h h2
        · exact h
      cases hdv : w._device <;>
        simp [set_enable, reset, _reset, hreader, set_device, h1, h2, h4, emit, act,
          isCurrentDevice, hdv]
  · simp [set_enable, reset, _reset, hreader, set_device, h1, emit, act]

/-- Witness for C12: the scanning component whose permission was later
refused, and the one on which a second `init()` left autostart in progress:
after `enable = false` the loop on the back camera still runs and the back
camera is still current. -/
theorem set_enable_false_blocked_witness :
    (deniedWorld.loops 0) = ⟨some "cam1", false, 0⟩ ∧
    (deniedWorld.streams 0).observer = .active ∧
    ((set_enable false (grantingEnv []) deniedWorld).loops 0) = ⟨some "cam1", false, 0⟩ ∧
    (set_enable false (grantingEnv []) deniedWorld)._device = some backCamera ∧
    stuckAutostartWorld._isAutostarting = some true ∧
    (set_enable false (grantingEnv []) stuckAutostartWorld)._device = some backCamera ∧
    ((set_enable false (grantingEnv []) stuckAutostartWorld).loops 0)
      = ⟨some "cam1", false, 0⟩ := by
  have h1 := set_enable_false_blocked (grantingEnv []) deniedWorld 0 (by decide)
    (Or.inr (Or.inr (by decide)))
  have h2 := set_enable_false_blocked (grantingEnv []) stuckAutostartWorld 0 (by decide)
    (Or.inr (Or.inl (by decide)))
  refine ⟨by decide, by decide, ?_, ?_, by decide, ?_, ?_⟩
  · rw [h1.2.2.1]; decide
  · rw [h1.1]; decide
  · rw [h2.1]; decide
  · rw [h2.2.2.1]; decide

/-- C13, counterexample: a disable followed by an enable does not resume the
device selected before. On the component on which the front camera was
assigned, `enable = false` unsets the device, and `enable = true` re-runs
`init()`, whose autostart selects the back camera and scans that. -/
theorem disable_enable_forgets_device :
    frontScanningWorld._device = some frontCamera ∧
    (frontScanningWorld.loops 1) = ⟨some "cam0", false, 0⟩ ∧
    (set_enable false (grantingEnv []) frontScanningWorld)._device = none ∧
    (set_enable true (grantingEnv [frontCamera, backCamera])
      (set_enable false (grantingEnv []) frontScanningWorld))._device = some backCamera ∧
    (set_enable true (grantingEnv [frontCamera, backCamera])
      (set_enable false (grantingEnv []) frontScanningWorld)).trace
      = (set_enable false (grantingEnv []) frontScanningWorld).trace ++
        [.emit (.autostarting true), .getUserMedia, .trackStop,
         .emit (.permissionResponse (some true)), .listVideoInputDevices,
         .emit (.hasDevices (some true)), .emit (.camerasFound [frontCamera, backCamera]),
         .emit (.torchCompatible false), .decodeFromVideoDevice 1 2 (some "cam1"),
         .loopStarted 2, .emit (.scanFailure none), .emit (.scanComplete none),
         .emit (.torchCompatible false), .emit (.deviceChange (some backCamera)),
         .emit (.autostarting false), .emit .autostarted] := by
  decide

/-- C13, amended: setting `enable` to true while a device `D` is current calls
the engine for `D` and keeps `D` current; when no device is set it does what
`ngOnInit` does, a run of `init()`. A disable on a ready component with
permission granted and a live scan stops that scan and unsets the device, so
the enable that follows re-runs `init()`. -/
theorem set_enable_true_restarts (env : Env) (w : World) :
    (∀ D, w._device = some D →
      (set_enable true env w)._device = some D ∧
      ∃ r rest, (set_enable true env w).trace
        = w.trace ++ [.decodeFromVideoDevice r w.nextStream (some D.deviceId)] ++ rest) ∧
    (w._device = none → set_enable true env w = ngOnInit env { w with _enabled := true }) ∧
    (∀ r k l D, w._ready = true → w._isAutostarting ≠ some true →
      w.hasPermission = some (some true) → w._device = some D →
      w._codeReader = some r → w._scanSubscription = some k →
      (w.readers r).scannerControls = some ⟨l, k⟩ → (w.streams k).isStopped = false →
      (set_enable false env w)._device = none ∧
      (set_enable false env w)._scanSubscription = none ∧
      ((set_enable false env w).loops l).stops = (w.loops l).stops + 1 ∧
      (set_enable false env w).trace
        = w.trace ++ [.loopStop l, .unsubscribe k, .emit (.torchCompatible false),
            .cleanVideoSource, .emit (.deviceChange none)]) := by
  refine ⟨?_, ?_, ?_⟩
  · intro D hD
    obtain ⟨h1, h2, r, rest, h3⟩ :=
      scanFromDevice_calls_engine D.deviceId env { w with _enabled := true }
    have hs : set_enable true env w
        = detach (scanFromDevice D.deviceId env { w with _enabled := true }) := by
      cases w
      simp only at hD
      subst hD
      rfl
    rw [hs]
    simp only [detach, h1]
    exact ⟨by rw [h2]; exact hD, r, rest, h3⟩
  · intro hD
    simp [set_enable, hD, ngOnInit]
  · intro r k l D hready hauto hperm hD hreader hsub hctl hopen
    cases ho : (w.streams k).observer <;>
      simp [set_enable, reset, _reset, hreader, set_device, hready, hauto, hperm, hD,
        isCurrentDevice, detach, setDevice, setDeviceBegin, scanStop, hsub, getScannerControls,
        hctl, controlsStop, engineStop, subjectComplete, hopen, ho, setStream, unsubscribe,
        cleanVideoSource, emit, act]

/-- Witness for C13: `enable = true` on the component scanning the back
camera, and the disable of the component scanning the front camera. -/
theorem set_enable_true_restarts_witness :
    (set_enable true (grantingEnv []) scanningWorld)._device = some backCamera ∧
    (set_enable false (grantingEnv []) frontScanningWorld)._device = none ∧
    ((set_enable false (grantingEnv []) frontScanningWorld).loops 1).stops = 1 :=
  ⟨((set_enable_true_restarts (grantingEnv []) scanningWorld).1 backCamera (by decide)).1,
   ((set_enable_true_restarts (grantingEnv []) frontScanningWorld).2.2 0 1 1 frontCamera
      (by decide) (by decide) (by decide) (by decide) (by decide) (by decide) (by decide)
      (by decide)).1,
   by decide⟩

/-! ## Routing of outcomes -/

/-- C14: a Success outcome makes the component emit `scanSuccess` with the
result's text and then `scanComplete`, and nothing else; a SoftFailure outcome
makes it emit `scanFailure` with the reason and then `scanComplete`, and
nothing else. This holds for the handler `_onDecodeResult` and for the decode
callback feeding a stream that is open and subscribed. -/
theorem onDecodeResult_routes (res : Result) (e : JsError) (w : World) :
    (_onDecodeResult (some res) none w).trace
      = w.trace ++ [.emit (.scanSuccess res.text), .emit (.scanComplete (some res))] ∧
    (_onDecodeResult none (some e) w).trace
      = w.trace ++ [.emit (.scanFailure (some e)), .emit (.scanComplete none)] ∧
    ∀ r k, (w.streams k).isStopped = false → (w.streams k).observer = .active →
      (decodeCallback r k (some res) none w).world.trace
        = w.trace ++ [.emit (.scanSuccess res.text), .emit (.scanComplete (some res))] ∧
      (isScanFailure e = .ok true →
        (decodeCallback r k none (some e) w).world.trace
          = w.trace ++ [.emit (.scanFailure (some e)), .emit (.scanComplete none)]) := by
  refine ⟨?_, ?_, ?_⟩
  · simp [_onDecodeResult, dispatchScanSuccess, dispatchScanComplete, emit, act]
  · simp [_onDecodeResult, dispatchScanFailure, dispatchScanComplete, emit, act]
  · intro r k hopen hact
    refine ⟨?_, ?_⟩
    · simp [decodeCallback, subjectNext, hopen, hact, setStream, _onDecodeResult,
        dispatchScanSuccess, dispatchScanComplete, emit, act]
    · intro hsoft
      simp [decodeCallback, hsoft, subjectNext, hopen, hact, setStream, _onDecodeResult,
        dispatchScanFailure, dispatchScanComplete, emit, act]

/-- Witness for C14: a decoded "hello" and a `NotFoundException` on the
component scanning the back camera. -/
theorem onDecodeResult_routes_witness :
    (decodeCallback 0 0 (some ⟨"hello"⟩) none scanningWorld).world.trace
      = scanningWorld.trace ++
        [.emit (.scanSuccess "hello"), .emit (.scanComplete (some ⟨"hello"⟩))] ∧
    (decodeCallback 0 0 none (some ⟨"NotFoundException", none⟩) scanningWorld).world.trace
      = scanningWorld.trace ++
        [.emit (.scanFailure (some ⟨"NotFoundException", none⟩)), .emit (.scanComplete none)] :=
  ⟨((onDecodeResult_routes ⟨"hello"⟩ ⟨"NotFoundException", none⟩ scanningWorld).2.2 0 0
      (by decide) (by decide)).1,
   ((onDecodeResult_routes ⟨"hello"⟩ ⟨"NotFoundException", none⟩ scanningWorld).2.2 0 0
      (by decide) (by decide)).2 (by decide)⟩

/-- C15, counterexample: the fatal error that halts the scanning component makes
it emit `scanError` and nothing more; no `scanComplete` follows. -/
theorem fatal_error_emits_no_scanComplete :
    haltedWorld.trace
      = scanningWorld.trace ++
        [.emit (.scanError ⟨"NotReadableError", some "Could not start video source"⟩),
         .loopStop 0] ∧
    _onDecodeError ⟨"NotReadableError", some "Could not start video source"⟩ scanningWorld
      = emit (.scanError ⟨"NotReadableError", some "Could not start video source"⟩)
          scanningWorld := by
  exact ⟨by decide, rfl⟩

/-- C15, amended: every Success and SoftFailure outcome (every value the stream
pushes) ends with a `scanComplete` event carrying the raw result, `undefined`
when there is none, after exactly one `scanSuccess` or `scanFailure`; a
FatalError makes the component emit `scanError` only. -/
theorem scanComplete_follows_values_only (result : Option Result) (error : Option JsError)
    (err : JsError) (w : World) :
    (∃ a, (_onDecodeResult result error w).trace
        = w.trace ++ [.emit a, .emit (.scanComplete result)] ∧
      (a = .scanFailure error ∨ ∃ r, result = some r ∧ a = .scanSuccess r.text)) ∧
    (_onDecodeError err w).trace = w.trace ++ [.emit (.scanError err)] ∧
    ∀ k, (w.streams k).isStopped = false → (w.streams k).observer = .active →
      (subjectError k err w).trace = w.trace ++ [.emit (.scanError err)] := by
  refine ⟨?_, ?_, ?_⟩
  · cases result with
    | none =>
      exact ⟨.scanFailure error, by
        simp [_onDecodeResult, dispatchScanFailure, dispatchScanComplete, emit, act], Or.inl rfl⟩
    | some r =>
      exact ⟨.scanSuccess r.text, by
        simp [_onDecodeResult, dispatchScanSuccess, dispatchScanComplete, emit, act],
        Or.inr ⟨r, rfl, rfl⟩⟩
  · simp [_onDecodeError, dispatchScanError, emit, act]
  · intro k hopen hact
    simp [subjectError, hopen, hact, setStream, _onDecodeError, dispatchScanError, emit, act]

/-- Witness for C15: the fatal error on the scanning component. -/
theorem scanComplete_follows_values_only_witness :
    (subjectError 0 ⟨"NotReadableError", some "Could not start video source"⟩
      scanningWorld).trace
      = scanningWorld.trace ++
        [.emit (.scanError ⟨"NotReadableError", some "Could not start video source"⟩)] :=
  (scanComplete_follows_values_only none none
    ⟨"NotReadableError", some "Could not start video source"⟩ scanningWorld).2.2 0
    (by decide) (by decide)

/-! ## The controls handle and the fatal branch -/

/-- C16: the `stop()` of the controls handle invokes the engine's stop and
completes the stream of a running scan; a second `stop()` adds no notification,
so the stream receives the one completion and no error. On a stream already
terminated (by a fatal error) `stop()` adds no notification at all. The call
has no throwing path. -/
theorem controlsStop_idempotent (c : Controls) (w : World) :
    ((controlsStop c w).loops c.loop).stops = (w.loops c.loop).stops + 1 ∧
    ((controlsStop c w).streams c.stream).isStopped = true ∧
    ((controlsStop c w).streams c.stream).thrownError = (w.streams c.stream).thrownError ∧
    ((controlsStop c w).streams c.stream).emitted
      = (if (w.streams c.stream).isStopped then (w.streams c.stream).emitted
         else (w.streams c.stream).emitted ++ [.complete]) ∧
    ((controlsStop c (controlsStop c w)).streams c.stream).emitted
      = ((controlsStop c w).streams c.stream).emitted ∧
    ((controlsStop c (controlsStop c w)).streams c.stream).thrownError
      = (w.streams c.stream).thrownError ∧
    ((controlsStop c (controlsStop c w)).loops c.loop).stops = (w.loops c.loop).stops + 2 := by
  by_cases hst : (w.streams c.stream).isStopped = true <;>
    simp [controlsStop, engineStop, subjectComplete, setStream, act, hst]

/-- On a running scan whose controls are held, a fatal error that carries a
message is pushed as the stream's error, the engine's stop is invoked once,
the controls are dropped and the stream takes no further value. -/
theorem decodeCallback_fatal_running (r k l : Nat) (e : JsError) (v : ResultAndError)
    (w : World)
    (hopen : (w.streams k).isStopped = false)
    (hctl : (w.readers r).scannerControls = some ⟨l, k⟩)
    (hfatal : isScanFailure e = .ok false) :
    (decodeCallback r k none (some e) w).result = .ok () ∧
    ((decodeCallback r k none (some e) w).world.streams k).emitted
      = (w.streams k).emitted ++ [.error e] ∧
    ((decodeCallback r k none (some e) w).world.loops l).stops = (w.loops l).stops + 1 ∧
    getScannerControls r (decodeCallback r k none (some e) w).world
      = .error (.error ⟨"Error", some "No scanning is running at the time."⟩) ∧
    ((subjectNext k v (decodeCallback r k none (some e) w).world).streams k).emitted
      = (w.streams k).emitted ++ [.error e] := by
  cases ho : (w.streams k).observer <;>
    simp [decodeCallback, hfatal, subjectError, hopen, ho, setStream, _onDecodeError,
      dispatchScanError, emit, act, hctl, controlsStop, engineStop, subjectComplete,
      setScannerControls, getScannerControls, subjectNext]

/-- C17: a fatal error that carries no message is not handled as the fatal
branch prescribes. The callback throws at `error.message.includes(...)`: the
stream is not stopped, the engine's stop is not invoked, the controls handle
is still returned by `getScannerControls()`, and the stream still accepts the
next outcome. -/
theorem decodeCallback_messageless_keeps_handle (r k : Nat) (e : JsError) (c : Controls)
    (res : Result) (w : World)
    (hname : e.name ≠ "NotFoundException" ∧ e.name ≠ "ChecksumException" ∧
      e.name ≠ "FormatException")
    (hmsg : e.message = none)
    (hctl : (w.readers r).scannerControls = some c)
    (hopen : (w.streams k).isStopped = false) :
    (decodeCallback r k none (some e) w).result = .error .typeError ∧
    ((decodeCallback r k none (some e) w).world.streams k).isStopped = false ∧
    ((decodeCallback r k none (some e) w).world.streams k).emitted = (w.streams k).emitted ∧
    (decodeCallback r k none (some e) w).world.loops = w.loops ∧
    (decodeCallback r k none (some e) w).world.trace = w.trace ∧
    getScannerControls r (decodeCallback r k none (some e) w).world = .ok c ∧
    ((decodeCallback r k (some res) none
        (decodeCallback r k none (some e) w).world).world.streams k).emitted
      = (w.streams k).emitted ++ [.next ⟨some res, none⟩] := by
  have h : decodeCallback r k none (some e) w = ⟨w, .error .typeError⟩ := by
    simp [decodeCallback, isScanFailure, hname.1, hname.2.1, hname.2.2, hmsg]
  rw [h]
  refine ⟨rfl, hopen, rfl, rfl, rfl, ?_, ?_⟩
  · simp [getScannerControls, hctl]
  · cases ho : (w.streams k).observer <;>
      simp [decodeCallback, subjectNext, hopen, ho, setStream, _onDecodeResult,
        dispatchScanSuccess, dispatchScanComplete, emit, act]

/-- Witness for C17: a message-less `IllegalStateException` on the component
scanning the back camera. -/
theorem decodeCallback_messageless_keeps_handle_witness :
    (decodeCallback 0 0 none (some ⟨"IllegalStateException", none⟩) scanningWorld).result
      = .error .typeError ∧
    (scanningWorld.loops 0).stops = 0 ∧
    getScannerControls 0
      (decodeCallback 0 0 none (some ⟨"IllegalStateException", none⟩) scanningWorld).world
      = .ok ⟨0, 0⟩ :=
  ⟨(decodeCallback_messageless_keeps_handle 0 0 ⟨"IllegalStateException", none⟩ ⟨0, 0⟩
      ⟨"hello"⟩ scanningWorld (by decide) rfl (by decide) (by decide)).1,
   by decide,
   (decodeCallback_messageless_keeps_handle 0 0 ⟨"IllegalStateException", none⟩ ⟨0, 0⟩
      ⟨"hello"⟩ scanningWorld (by decide) rfl (by decide) (by decide)).2.2.2.2.2.1⟩

/-! ## Destruction -/

/-- C18: destruction does not clean up in every state. In the `dist` copy,
when the camera stream that `ngOnDestroy` requests first cannot be obtained,
the method rejects right there: no track is stopped, the preview element keeps
its source, `reset()` is not reached. In the other copy, which only calls
`reset()`, a component whose recorded permission is not `true` keeps its
device, its subscription and every engine loop. -/
theorem ngOnDestroy_leaves_scan_running (env : Env) (w : World) (e : JsError) (r : Nat)
    (hnav : w.hasNavigator = true) (hmd : w.isMediaDevicesSupported = true)
    (hum : env.userMedia = .error e)
    (hreader : w._codeReader = some r)
    (hperm : w.hasPermission ≠ some (some true)) :
    ngOnDestroy env w = ⟨act .getUserMedia w, .error (.error e)⟩ ∧
    (ngOnDestroy_zxing_scanner env w)._device = w._device ∧
    (ngOnDestroy_zxing_scanner env w)._scanSubscription = w._scanSubscription ∧
    (ngOnDestroy_zxing_scanner env w).loops = w.loops ∧
    (ngOnDestroy_zxing_scanner env w).videoSrcObject = w.videoSrcObject ∧
    (ngOnDestroy_zxing_scanner env w).trace = w.trace ++ [.emit (.deviceChange none)] := by
  refine ⟨?_, ?_⟩
  · simp [ngOnDestroy, getAnyVideoDevice, hnav, hmd, hum]
  · by_cases h1 : w._ready = true
    · by_cases h2 : w._isAutostarting = some true
      · simp [ngOnDestroy_zxing_scanner, reset, _reset, hreader, set_device, h1, h2, emit, act]
      · cases hdv : w._device <;>
          simp [ngOnDestroy_zxing_scanner, reset, _reset, hreader, set_device, h1, h2, hperm,
            emit, act, isCurrentDevice, hdv]
    · simp [ngOnDestroy_zxing_scanner, reset, _reset, hreader, set_device, h1, emit, act]

/-- Witness for C18: destroying the scanning component whose permission was
refused, with a one-track stream on the preview element. -/
theorem ngOnDestroy_leaves_scan_running_witness :
    (ngOnDestroy deniedEnv { deniedWorld with videoSrcObject := some 1 }).result
      = .error (.error ⟨"NotAllowedError", some "Permission denied"⟩) ∧
    (ngOnDestroy deniedEnv { deniedWorld with videoSrcObject := some 1 }).world.videoSrcObject
      = some 1 ∧
    ((ngOnDestroy deniedEnv { deniedWorld with videoSrcObject := some 1 }).world.loops 0)
      = ⟨some "cam1", false, 0⟩ ∧
    (ngOnDestroy_zxing_scanner deniedEnv { deniedWorld with videoSrcObject := some 1 })._device
      = some backCamera := by
  have h := ngOnDestroy_leaves_scan_running deniedEnv
    { deniedWorld with videoSrcObject := some 1 } ⟨"NotAllowedError", some "Permission denied"⟩ 0
    (by decide) (by decide) rfl (by decide) (by decide)
  refine ⟨?_, ?_, ?_, ?_⟩
  · rw [h.1]
  · rw [h.1]; decide
  · rw [h.1]; decide
  · rw [h.2.1]; decide

/-! ## `scanStart` and a failing start -/

/-- C19: `scanStart()` throws, leaving the state as it was, when a scan
subscription exists ('There is already a scan proccess running.') or when no
device is set ('No device defined, cannot start scan, please define a
device.'); otherwise it returns after `scanFromDevice` was called with the
current device's `deviceId`, so that the engine has been called for it. -/
theorem scanStart_guards (env : Env) (w : World) :
    (∀ k, w._scanSubscription = some k →
      scanStart env w
        = ⟨w, .error (.error ⟨"Error", some "There is already a scan proccess running."⟩)⟩) ∧
    (w._scanSubscription = none → w._device = none →
      scanStart env w
        = ⟨w, .error (.error
            ⟨"Error", some "No device defined, cannot start scan, please define a device."⟩)⟩) ∧
    (∀ d, w._scanSubscription = none → w._device = some d →
      scanStart env w = ⟨detach (scanFromDevice d.deviceId env w), .ok ()⟩ ∧
      (scanStart env w).world._device = some d ∧
      ∃ r rest, (scanStart env w).world.trace
        = w.trace ++ [.decodeFromVideoDevice r w.nextStream (some d.deviceId)] ++ rest) := by
  refine ⟨?_, ?_, ?_⟩
  · intro k hk
    simp [scanStart, hk]
  · intro hs hd
    simp [scanStart, hs, hd]
  · intro d hs hd
    obtain ⟨h1, h2, r, rest, h3⟩ := scanFromDevice_calls_engine d.deviceId env w
    have heq : scanStart env w = ⟨detach (scanFromDevice d.deviceId env w), .ok ()⟩ := by
      simp [scanStart, hs, hd]
    rw [heq]
    simp only [detach, h1]
    exact ⟨trivial, by rw [h2]; exact hd, r, rest, h3⟩

/-- Witness for C19: `scanStart()` on the scanning component throws; on the
component whose subscription was released it calls the engine for the back
camera. -/
theorem scanStart_guards_witness :
    scanStart (grantingEnv []) scanningWorld
      = ⟨scanningWorld,
         .error (.error ⟨"Error", some "There is already a scan proccess running."⟩)⟩ ∧
    (scanStart (grantingEnv []) idleWorld).result
      = .error (.error
          ⟨"Error", some "No device defined, cannot start scan, please define a device."⟩) ∧
    (scanStart (grantingEnv []) { scanningWorld with _scanSubscription := none }).result
      = .ok () := by
  refine ⟨(scanStart_guards (grantingEnv []) scanningWorld).1 0 (by decide), ?_, ?_⟩
  · rw [(scanStart_guards (grantingEnv []) idleWorld).2.1 (by decide) (by decide)]
  · rw [((scanStart_guards (grantingEnv []) { scanningWorld with _scanSubscription := none }).2.2
      backCamera (by decide) (by decide)).1]

/-- C20: when `decodeFromVideoDevice` throws `e`, `scanFromDeviceObservable`
returns normally; the stream it returns is stopped with `e` as its error and
`e` as its only notification, the reader holds no controls
(`getScannerControls()` throws), and controls that were held had their
`stop()` invoked. -/
theorem scanFromDeviceObservable_start_throws (r : Nat) (deviceId : Option String)
    (e : JsError) (w : World) :
    (scanFromDeviceObservableBegin r deviceId w).2.stream = w.nextStream ∧
    ((scanFromDeviceObservableResume (scanFromDeviceObservableBegin r deviceId w).2 (.error e)
        (scanFromDeviceObservableBegin r deviceId w).1).streams w.nextStream).isStopped = true ∧
    ((scanFromDeviceObservableResume (scanFromDeviceObservableBegin r deviceId w).2 (.error e)
        (scanFromDeviceObservableBegin r deviceId w).1).streams w.nextStream).thrownError
      = some e ∧
    ((scanFromDeviceObservableResume (scanFromDeviceObservableBegin r deviceId w).2 (.error e)
        (scanFromDeviceObservableBegin r deviceId w).1).streams w.nextStream).emitted
      = [.error e] ∧
    getScannerControls r
      (scanFromDeviceObservableResume (scanFromDeviceObservableBegin r deviceId w).2 (.error e)
        (scanFromDeviceObservableBegin r deviceId w).1)
      = .error (.error ⟨"Error", some "No scanning is running at the time."⟩) ∧
    (scanFromDeviceObservableResume (scanFromDeviceObservableBegin r deviceId w).2 (.error e)
        (scanFromDeviceObservableBegin r deviceId w).1).trace
      = w.trace ++ [.decodeFromVideoDevice r w.nextStream deviceId] ++
        (match (w.readers r).scannerControls with
         | some c => [.loopStop c.loop]
         | none => []) ∧
    (∀ c, (w.readers r).scannerControls = some c →
      ((scanFromDeviceObservableResume (scanFromDeviceObservableBegin r deviceId w).2 (.error e)
        (scanFromDeviceObservableBegin r deviceId w).1).loops c.loop).stops
        = (w.loops c.loop).stops + 1) := by
  cases hc : (w.readers r).scannerControls with
  | none =>
    simp [scanFromDeviceObservableBegin, scanFromDeviceObservableResume, subjectError, newSubject,
      setStream, act, hc, setScannerControls, getScannerControls]
  | some c =>
    by_cases hk : c.stream = w.nextStream
    · simp [scanFromDeviceObservableBegin, scanFromDeviceObservableResume, subjectError,
        newSubject, setStream, act, hc, setScannerControls, getScannerControls, controlsStop,
        engineStop, subjectComplete, hk]
    · by_cases hst : (w.streams c.stream).isStopped = true <;>
        simp [scanFromDeviceObservableBegin, scanFromDeviceObservableResume, subjectError,
          newSubject, setStream, act, hc, setScannerControls, getScannerControls, controlsStop,
          engineStop, subjectComplete, hk, upd_other, hst, Ne.symm hk]

/-- Witness for C20: a start that throws on the reader of the scanning
component, whose held controls get their `stop()` invoked. -/
theorem scanFromDeviceObservable_start_throws_witness :
    ((scanFromDeviceObservableResume
        (scanFromDeviceObservableBegin 0 (some "cam0") scanningWorld).2
        (.error ⟨"NotReadableError", some "Could not start video source"⟩)
        (scanFromDeviceObservableBegin 0 (some "cam0") scanningWorld).1).loops 0).stops
      = (scanningWorld.loops 0).stops + 1 :=
  (scanFromDeviceObservable_start_throws 0 (some "cam0")
    ⟨"NotReadableError", some "Could not start video source"⟩ scanningWorld).2.2.2.2.2.2
    ⟨0, 0⟩ (by decide)

/-! ## Asking for permission -/

/-- C21: when `navigator` or its `mediaDevices` is absent, `askForPermission`
returns `null`, records `null` as `hasPermission`, and does nothing but emit
that value on `permissionResponse`: no camera stream is requested, and the
value returned is not `false`. -/
theorem askForPermission_unsupported (env : Env) (w : World)
    (h : w.hasNavigator = false ∨ w.isMediaDevicesSupported = false) :
    (askForPermission env w).2 = none ∧
    (askForPermission env w).2 ≠ some false ∧
    (askForPermission env w).1.hasPermission = some none ∧
    (askForPermission env w).1.trace
      = w.trace ++
        (if w.permissionResponseStopped then [] else [.emit (.permissionResponse none)]) := by
  cases hs : w.permissionResponseStopped <;>
  cases hn : w.hasNavigator <;>
  cases hm : w.isMediaDevicesSupported <;>
  simp [askForPermission, setPermission, emit, act, hs, hn, hm] <;>
  simp [hn, hm] at h

/-- Witness for C21: a fresh component in a browser without `navigator`. -/
theorem askForPermission_unsupported_witness :
    (askForPermission (grantingEnv []) (construct false false)).2 = none ∧
    (askForPermission (grantingEnv []) (construct false false)).1.trace
      = [.emit (.permissionResponse none)] := by
  have h := askForPermission_unsupported (grantingEnv []) (construct false false)
    (Or.inl (by decide))
  exact ⟨h.1, by rw [h.2.2.2]; decide⟩

/-- C22: the value `askForPermission` returns is the value it records as
`hasPermission`, on every path. When the probe yields a stream, every track of
it is stopped, then `true` is recorded and emitted, and `true` is returned;
when the probe throws, the outcome is that of `handlePermissionException` on
the exception. -/
theorem askForPermission_records (env : Env) (w : World) :
    (askForPermission env w).1.hasPermission = some (askForPermission env w).2 ∧
    (w.hasNavigator = true → w.isMediaDevicesSupported = true →
      (∀ n, env.userMedia = .ok n →
        (askForPermission env w).2 = some true ∧
        (askForPermission env w).1.trace
          = w.trace ++ [.getUserMedia] ++ List.replicate n Action.trackStop ++
            (if w.permissionResponseStopped then []
             else [.emit (.permissionResponse (some true))])) ∧
      (∀ e, env.userMedia = .error e →
        askForPermission env w = handlePermissionException e (act .getUserMedia w))) := by
  refine ⟨?_, ?_⟩
  · cases hs : w.permissionResponseStopped <;>
    cases hn : w.hasNavigator <;>
    cases hm : w.isMediaDevicesSupported <;>
    cases hu : env.userMedia with
    | ok n =>
      simp [askForPermission, setPermission, terminateStream, emit, act, hs, hn, hm, hu]
    | error e =>
      by_cases h1 : e.name = "NotSupportedError" <;>
      by_cases h2 : e.name = "NotAllowedError" <;>
      by_cases h3 : e.name = "NotFoundError" <;>
      by_cases h4 : e.name = "NotReadableError" <;>
      simp [askForPermission, setPermission, terminateStream, emit, act, hs, hn, hm, hu,
        handlePermissionException, permissionResponseError, h1, h2, h3, h4]
  · intro hn hm
    refine ⟨?_, ?_⟩
    · intro n hu
      cases hs : w.permissionResponseStopped <;>
        simp [askForPermission, setPermission, terminateStream, emit, act, hs, hn, hm, hu]
    · intro e hu
      simp [askForPermission, terminateStream, hn, hm, hu]

/-- Witness for C22: the probe granted and the probe refused, on a fresh
component. -/
theorem askForPermission_records_witness :
    (askForPermission (grantingEnv []) (construct true true)).2 = some true ∧
    (askForPermission (grantingEnv []) (construct true true)).1.trace
      = [.getUserMedia, .trackStop, .emit (.permissionResponse (some true))] ∧
    (askForPermission deniedEnv (construct true true)).2 = some false ∧
    (askForPermission deniedEnv (construct true true)).1.hasPermission = some (some false) := by
  have h := (askForPermission_records (grantingEnv []) (construct true true)).2
    (by decide) (by decide)
  have h1 := h.1 1 rfl
  refine ⟨h1.1, ?_, by decide, ?_⟩
  · rw [h1.2]; decide
  · rw [(askForPermission_records deniedEnv (construct true true)).1]; decide

/-! ## Lifetime of the controls handle -/

/-- C23: the controls handle outlives the scan when the scan is stopped through
the handle's `stop()`. `stop()` invokes the engine's stop and completes the
stream but does not clear `scannerControls`, so `getScannerControls()` still
returns the handle instead of throwing. -/
theorem getScannerControls_after_stop (r : Nat) (c : Controls) (w : World)
    (hctl : (w.readers r).scannerControls = some c) :
    ((controlsStop c w).loops c.loop).stops = (w.loops c.loop).stops + 1 ∧
    ((controlsStop c w).streams c.stream).isStopped = true ∧
    getScannerControls r (controlsStop c w) = .ok c := by
  by_cases hst : (w.streams c.stream).isStopped = true <;>
    simp [controlsStop, engineStop, subjectComplete, setStream, act, hst, getScannerControls,
      hctl]

/-- Witness for C23: on the component scanning the back camera the handle is
still returned after its `stop()`, and after the component's `scanStop()`;
before any scan and after a fatal error the call throws. -/
theorem getScannerControls_after_stop_witness :
    getScannerControls 0 (controlsStop ⟨0, 0⟩ scanningWorld) = .ok ⟨0, 0⟩ ∧
    getScannerControls 0 (scanStop scanningWorld).world = .ok ⟨0, 0⟩ ∧
    getScannerControls 0 (getCodeReader (construct true true)).1
      = .error (.error ⟨"Error", some "No scanning is running at the time."⟩) ∧
    getScannerControls 0 haltedWorld
      = .error (.error ⟨"Error", some "No scanning is running at the time."⟩) :=
  ⟨(getScannerControls_after_stop 0 ⟨0, 0⟩ scanningWorld (by decide)).2.2,
   by decide, by decide, by decide⟩

/-! ## Hints -/

/-- C24: setting the hints, directly or through the `formats` or `tryHarder`
setter, applies them in place: an existing code reader is kept and receives
`setHints` with the new hints; when there is none, none is created and the
reader created later is constructed with the hints then current. -/
theorem hints_update_in_place (w : World) (hints : Hints) (l : List FormatInput)
    (enable : Bool) :
    ((set_hints hints w)._hints = hints ∧ HintsAppliedInPlace w (set_hints hints w)) ∧
    ((set_tryHarder enable w)._hints = { w._hints with tryHarder := enable } ∧
      HintsAppliedInPlace w (set_tryHarder enable w)) ∧
    (∃ fs, mapFormats l = .ok fs ∧
      (set_formats (.list l) w).result = .ok () ∧
      (set_formats (.list l) w).world._hints = { w._hints with possibleFormats := some fs } ∧
      HintsAppliedInPlace w (set_formats (.list l) w).world) := by
  have key : ∀ h : Hints, (set_hints h w)._hints = h ∧ HintsAppliedInPlace w (set_hints h w) := by
    intro h
    cases hc : w._codeReader <;>
      simp [set_hints, HintsAppliedInPlace, hc, getCodeReader]
  have hmap : ∀ l : List FormatInput, ∃ fs, mapFormats l = .ok fs := by
    intro l
    induction l with
    | nil => exact ⟨[], rfl⟩
    | cons f fs ih =>
      obtain ⟨vs, hvs⟩ := ih
      cases f <;> simp [mapFormats, getBarcodeFormatOrFail, hvs]
  refine ⟨key hints, key _, ?_⟩
  obtain ⟨fs, hfs⟩ := hmap l
  refine ⟨fs, hfs, ?_, ?_, ?_⟩
  · simp [set_formats, hfs]
  · simp [set_formats, hfs, (key _).1]
  · simp only [set_formats, hfs]
    exact (key _).2

/-! ## Enumerating the devices -/

/-- C25: `updateVideoInputDevices` returns the enumerated list, the empty list
when the enumeration yields nothing; it emits `hasDevices` with `true` exactly
when the list is non-empty, then `camerasFound` with the list as it is, and
`camerasNotFound` exactly when the list is empty. -/
theorem updateVideoInputDevices_emits (listed : Option (List MediaDeviceInfo)) (env : Env)
    (w : World) :
    (updateVideoInputDevicesFrom listed w).2 = listed.getD [] ∧
    (updateVideoInputDevicesFrom listed w).1.trace
      = w.trace ++
        [.listVideoInputDevices, .emit (.hasDevices (some (decide (listed.getD [] ≠ [])))),
         .emit (.camerasFound (listed.getD []))] ++
        (if listed.getD [] = [] then [.emit (.camerasNotFound none)] else []) ∧
    updateVideoInputDevices env w = updateVideoInputDevicesFrom (some env.devices) w := by
  refine ⟨?_, ?_, rfl⟩
  · cases listed <;> rfl
  · cases listed with
    | none => simp [updateVideoInputDevicesFrom, emit, act]
    | some ds =>
      cases ds <;> simp [updateVideoInputDevicesFrom, emit, act]

/-! ## `restart` -/

/-- C26: `restart()` neither stops the old scan nor starts a new one. It clears
`_codeReader` first, so `_reset()` returns at once without a device, and
`restart()` returns: the state is as before except that the code reader is
dropped. On the component scanning the back camera the loop keeps running, no
action is taken and no reader is created. -/
theorem restart_only_drops_reader (env : Env) (w : World) :
    restart env w = { w with _codeReader := none } ∧
    (restart (grantingEnv []) scanningWorld).trace = scanningWorld.trace ∧
    (restart (grantingEnv []) scanningWorld)._device = some backCamera ∧
    ((restart (grantingEnv []) scanningWorld).loops 0) = ⟨some "cam1", false, 0⟩ ∧
    (restart (grantingEnv []) scanningWorld).nextLoop = 1 ∧
    (restart (grantingEnv []) scanningWorld).nextReader = 1 ∧
    (restart (grantingEnv []) scanningWorld)._codeReader = none := by
  refine ⟨?_, by decide, by decide, by decide, by decide, by decide, by decide⟩
  simp [restart, _reset]

/-! ## The value replayed at subscription -/

/-- C27, counterexample: a scan whose start succeeds after a decode attempt
has completed. On a fresh component the engine is called for "cam0", the
decode callback delivers the result "hello" before the engine call settles,
then the call settles and the component subscribes: it is replayed the stored
outcome, emits `scanSuccess` and `scanComplete` with that result, and never
emits `scanFailure` with an undefined reason. -/
theorem early_result_replaces_initial_value :
    (scanFromDeviceResume (scanFromDeviceBegin "cam0" (construct true true)).2 (.ok false)
      (decodeCallback 0 0 (some ⟨"hello"⟩) none
        (scanFromDeviceBegin "cam0" (construct true true)).1).world).result = .ok () ∧
    (scanFromDeviceResume (scanFromDeviceBegin "cam0" (construct true true)).2 (.ok false)
      (decodeCallback 0 0 (some ⟨"hello"⟩) none
        (scanFromDeviceBegin "cam0" (construct true true)).1).world).world.trace
      = [.decodeFromVideoDevice 0 0 (some "cam0"), .loopStarted 0,
         .emit (.scanSuccess "hello"), .emit (.scanComplete (some ⟨"hello"⟩)),
         .emit (.torchCompatible false)] ∧
    Action.emit (.scanFailure none) ∉
      (scanFromDeviceResume (scanFromDeviceBegin "cam0" (construct true true)).2 (.ok false)
        (decodeCallback 0 0 (some ⟨"hello"⟩) none
          (scanFromDeviceBegin "cam0" (construct true true)).1).world).world.trace := by
  decide

/-- C27, amended: when the engine call of a scan settles with success while
the stream is open, the component is replayed, as it subscribes, the value the
stream holds: it handles that value as a decode outcome and then emits
`torchCompatible`. If the stream still holds its initial value `{}` (no decode
outcome was pushed before the subscription) the events are `scanFailure` with
an undefined reason, then `scanComplete` with an undefined result; this is the
case in every run of `scanFromDevice` in which nothing happens between the
engine call and its settling. -/
theorem subscription_replays_current_value (p : PendingScan) (t : Bool) (w : World)
    (deviceId : String) (env : Env) (w0 : World) :
    ((w.streams p.stream).isStopped = false → (w.streams p.stream).thrownError = none →
      (scanFromDeviceResume p (.ok t) w).result = .ok () ∧
      (scanFromDeviceResume p (.ok t) w).world.trace
        = (_onDecodeResult (w.streams p.stream).value.result (w.streams p.stream).value.error
            (act (.loopStarted w.nextLoop) w)).trace ++ [.emit (.torchCompatible t)] ∧
      ((w.streams p.stream).value = ⟨none, none⟩ →
        (scanFromDeviceResume p (.ok t) w).world.trace
          = w.trace ++ [.loopStarted w.nextLoop, .emit (.scanFailure none),
              .emit (.scanComplete none), .emit (.torchCompatible t)])) ∧
    ((scanFromDeviceBegin deviceId w0).1.streams (scanFromDeviceBegin deviceId w0).2.stream
      = newSubject) ∧
    (env.decode = .ok t →
      ∃ r, (scanFromDevice deviceId env w0).result = .ok () ∧
        (scanFromDevice deviceId env w0).world.trace
          = w0.trace ++
            [.decodeFromVideoDevice r w0.nextStream (some deviceId), .loopStarted w0.nextLoop,
             .emit (.scanFailure none), .emit (.scanComplete none),
             .emit (.torchCompatible t)] ∧
        ((scanFromDevice deviceId env w0).world.streams w0.nextStream).emitted = []) := by
  refine ⟨?_, ?_, ?_⟩
  · intro hopen herr
    have hgen : (scanFromDeviceResume p (.ok t) w).result = .ok () ∧
        (scanFromDeviceResume p (.ok t) w).world.trace
          = (_onDecodeResult (w.streams p.stream).value.result
              (w.streams p.stream).value.error
              (act (.loopStarted w.nextLoop) w)).trace ++ [.emit (.torchCompatible t)] := by
      cases hv : (w.streams p.stream).value.result <;>
        simp [scanFromDeviceResume, scanFromDeviceObservableResume, setScannerControls,
          subscribe, setStream, hopen, herr, hv, getScannerControls, _onDecodeResult,
          dispatchScanFailure, dispatchScanComplete, dispatchScanSuccess, emit, act]
    refine ⟨hgen.1, hgen.2, ?_⟩
    intro hval
    rw [hgen.2, hval]
    simp [_onDecodeResult, dispatchScanFailure, dispatchScanComplete, emit, act]
  · cases hr : w0._codeReader <;>
      simp [scanFromDeviceBegin, getCodeReader, hr, scanFromDeviceObservableBegin, act]
  · intro hd
    cases hr : w0._codeReader with
    | none =>
      refine ⟨w0.nextReader, ?_⟩
      simp [scanFromDevice, scanFromDeviceBegin, getCodeReader, hr,
        scanFromDeviceObservableBegin, scanFromDeviceResume, scanFromDeviceObservableResume, hd,
        act, emit, setScannerControls, subscribe, setStream, newSubject, _onDecodeResult,
        dispatchScanFailure, dispatchScanComplete, getScannerControls]
    | some r =>
      refine ⟨r, ?_⟩
      simp [scanFromDevice, scanFromDeviceBegin, getCodeReader, hr,
        scanFromDeviceObservableBegin, scanFromDeviceResume, scanFromDeviceObservableResume, hd,
        act, emit, setScannerControls, subscribe, setStream, newSubject, _onDecodeResult,
        dispatchScanFailure, dispatchScanComplete, getScannerControls]

/-- Witness for C27: on a fresh component the engine call for "cam0" settles
with nothing in between, and the subscription replays `{}`. -/
theorem subscription_replays_current_value_witness :
    (scanFromDeviceResume (scanFromDeviceBegin "cam0" (construct true true)).2 (.ok false)
      (scanFromDeviceBegin "cam0" (construct true true)).1).world.trace
      = [.decodeFromVideoDevice 0 0 (some "cam0"), .loopStarted 0, .emit (.scanFailure none),
         .emit (.scanComplete none), .emit (.torchCompatible false)] :=
  (((subscription_replays_current_value (scanFromDeviceBegin "cam0" (construct true true)).2
      false (scanFromDeviceBegin "cam0" (construct true true)).1 "cam0" (grantingEnv [])
      (construct true true)).1 (by decide) (by decide)).2.2 (by decide)).trans (by decide)

/-! ## The permission guard of the `device` setter, and `init` with autostart on -/

theorem scanStop_hasPermission (w : World) :
    (scanStop w).world.hasPermission = w.hasPermission := by
  unfold scanStop
  cases hs : w._scanSubscription with
  | none => simp [emit, act]
  | some k =>
    cases hr : w._codeReader with
    | none => simp [emit, act, unsubscribe, setStream, hr]
    | some r =>
      cases hc : (w.readers r).scannerControls with
      | none => simp [getScannerControls, hc, hr]
      | some c =>
        by_cases hst : (w.streams c.stream).isStopped = true <;>
          simp [getScannerControls, hc, hr, emit, act, unsubscribe, setStream, controlsStop,
            engineStop, subjectComplete, hst]

theorem subjectError_hasPermission (k : Nat) (e : JsError) (w : World) :
    (subjectError k e w).hasPermission = w.hasPermission := by
  by_cases hst : (w.streams k).isStopped = true <;>
  cases ho : (w.streams k).observer <;>
    simp [subjectError, hst, ho, setStream, _onDecodeError, dispatchScanError, emit, act]

theorem controlsStop_hasPermission (c : Controls) (w : World) :
    (controlsStop c w).hasPermission = w.hasPermission := by
  by_cases hst : (w.streams c.stream).isStopped = true <;>
    simp [controlsStop, engineStop, subjectComplete, setStream, act, hst]

theorem subscribe_hasPermission (k : Nat) (w : World) :
    (subscribe k w).hasPermission = w.hasPermission := by
  cases ht : (w.streams k).thrownError <;>
  by_cases hst : (w.streams k).isStopped = true <;>
  cases hv : (w.streams k).value.error <;>
  cases hr : (w.streams k).value.result <;>
    simp [subscribe, ht, hst, setStream, _onDecodeResult, _onDecodeError, dispatchScanFailure,
      dispatchScanComplete, dispatchScanSuccess, dispatchScanError, emit, act, hv, hr]

theorem scanFromDeviceObservableResume_hasPermission (p : PendingScan) (o : Except JsError Bool)
    (w : World) :
    (scanFromDeviceObservableResume p o w).hasPermission = w.hasPermission := by
  cases o with
  | ok t => simp [scanFromDeviceObservableResume, setScannerControls, act]
  | error e =>
    simp only [scanFromDeviceObservableResume, setScannerControls]
    cases hc : ((subjectError p.stream e w).readers p.reader).scannerControls with
    | none => simp [subjectError_hasPermission]
    | some c => simp [controlsStop_hasPermission, subjectError_hasPermission]

theorem scanFromDeviceResume_hasPermission (p : PendingScan) (o : Except JsError Bool)
    (w : World) :
    (scanFromDeviceResume p o w).world.hasPermission = w.hasPermission := by
  have h := scanFromDeviceObservableResume_hasPermission p o w
  have h2 := subscribe_hasPermission p.stream (scanFromDeviceObservableResume p o w)
  unfold scanFromDeviceResume
  simp only []
  split
  · simp [h, h2]
  · split <;> simp [h, h2, emit, act]

theorem scanFromDeviceBegin_hasPermission (deviceId : String) (w : World) :
    (scanFromDeviceBegin deviceId w).1.hasPermission = w.hasPermission := by
  cases hr : w._codeReader <;>
    simp [scanFromDeviceBegin, getCodeReader, hr, scanFromDeviceObservableBegin, act]

theorem setDevice_hasPermission (device : Option MediaDeviceInfo) (env : Env) (w : World) :
    (setDevice device env w).world.hasPermission = w.hasPermission := by
  have hs := scanStop_hasPermission w
  unfold setDevice setDeviceBegin
  rcases hsr : scanStop w with ⟨w1, res⟩
  rw [hsr] at hs
  simp only at hs
  cases res with
  | error t => simp [hs]
  | ok u =>
    cases device with
    | none => simp [cleanVideoSource, act, hs]
    | some d =>
      by_cases he : w1._enabled = true
      · simp [he, scanFromDeviceResume_hasPermission, scanFromDeviceBegin_hasPermission, hs]
      · simp [he, hs]

theorem detach_hasPermission {α : Type} (o : Outcome α) :
    (detach o).hasPermission = o.world.hasPermission := by
  unfold detach
  cases o.result <;> simp [act]

theorem init_autostartOff_frame (env : Env) (w : World) (hauto : w.autostart = false) :
    (init env w).world._ready = true ∧
    (init env w).world.hasPermission = w.hasPermission := by
  refine ⟨by simp [init, hauto], ?_⟩
  simp only [init, hauto, Bool.not_false, if_true, initAutostartOff]
  split
  · simp [detach_hasPermission, setDevice_hasPermission, updateVideoInputDevices,
      set_isAutostarting, emit, act]
    split <;> rfl
  · simp [updateVideoInputDevices, set_isAutostarting, emit, act]
    split <;> rfl

theorem set_device_not_ready (device : Option MediaDeviceInfo) (env : Env) (w : World)
    (hready : w._ready = false) :
    set_device device env w = { w with _devicePreStart := device } := by
  simp [set_device, hready]

theorem set_device_unpermitted (device : Option MediaDeviceInfo) (env : Env) (w : World)
    (hready : w._ready = true) (hperm : w.hasPermission ≠ some (some true)) :
    set_device device env w = w := by
  by_cases ha : w._isAutostarting = some true <;>
  by_cases hc : isCurrentDevice device w = true <;>
    simp [set_device, hready, ha, hc, hperm]

/-- C28: the `device` setter applies an assignment only when the recorded
permission is exactly `true`. With any other permission (unset, `null` or
`false`) a ready component is left as it is, state and trace, and a component
that is not ready only stores the device as the pre-start device. So when
`init()` has run with autostart off on a component whose permission was not
`true`, the component is ready, its permission is as before, and every device
assignment leaves it unchanged: no current device is set and no scan
starts. -/
theorem set_device_needs_permission (device : Option MediaDeviceInfo) (env env2 : Env)
    (w : World) (hperm : w.hasPermission ≠ some (some true)) :
    set_device device env w = (if w._ready then w else { w with _devicePreStart := device }) ∧
    (w.autostart = false →
      (init env2 w).world._ready = true ∧
      (init env2 w).world.hasPermission = w.hasPermission ∧
      set_device device env (init env2 w).world = (init env2 w).world) := by
  refine ⟨?_, ?_⟩
  · by_cases hr : w._ready = true
    · rw [if_pos hr]
      exact set_device_unpermitted device env w hr hperm
    · rw [if_neg hr]
      exact set_device_not_ready device env w (by simpa using hr)
  · intro hauto
    have h := init_autostartOff_frame env2 w hauto
    refine ⟨h.1, h.2, ?_⟩
    exact set_device_unpermitted device env _ h.1 (by rw [h.2]; exact hperm)

/-- Witness for C28: a fresh component with autostart off, initialised without
any permission request, ignores the assignment of the back camera; the
component whose permission was denied ignores the front camera. -/
theorem set_device_needs_permission_witness :
    set_device (some backCamera) (grantingEnv [backCamera])
        (init (grantingEnv [backCamera]) { construct true true with autostart := false }).world
      = (init (grantingEnv [backCamera]) { construct true true with autostart := false }).world ∧
    set_device (some frontCamera) (grantingEnv []) deniedWorld = deniedWorld :=
  ⟨((set_device_needs_permission (some backCamera) (grantingEnv [backCamera])
      (grantingEnv [backCamera]) { construct true true with autostart := false }
      (by decide)).2 (by decide)).2.2,
   (set_device_needs_permission (some frontCamera) (grantingEnv []) (grantingEnv [])
      deniedWorld (by decide)).1.trans (if_pos (by decide))⟩

theorem foldl_set_device_not_ready (ds : List (Option MediaDeviceInfo)) (env : Env) :
    ∀ v : World, v._ready = false →
      ds.foldl (fun u d => set_device d env u) v
        = { v with _devicePreStart := ds.getLast?.getD v._devicePreStart } := by
  induction ds with
  | nil => intro v _; rfl
  | cons d ds ih =>
    intro v hv
    rw [List.foldl_cons, set_device_not_ready d env v hv,
      ih { v with _devicePreStart := d } hv]
    cases ds with
    | nil => rfl
    | cons d2 ds2 =>
      have hl : (d2 :: ds2).getLast? = some ((d2 :: ds2).getLast (List.cons_ne_nil _ _)) :=
        List.getLast?_eq_getLast _ _
      simp only [List.getLast?_cons_cons, hl, Option.getD_some]

/-- C29: with autostart on, when the permission probe yields a stream and the
enumeration yields no device, `init()` fails with 'Impossible to autostart, no
input devices available.': `isAutostarting` stays `true`, `_ready` is not
set, `autostarted` is not emitted, and on a component that was not ready every
later sequence of device assignments only overwrites the pre-start device.
When `askForPermission` does not answer `true`, `init()` completes with
`isAutostarting = false` and `_ready = true`, having done nothing after the
permission request but emit `autostarting` and `autostarted`: no enumeration,
no scan. -/
theorem init_autostart_outcomes (env env2 : Env) (w : World) (hauto : w.autostart = true) :
    (∀ n, w.hasNavigator = true → w.isMediaDevicesSupported = true →
      env.userMedia = .ok n → env.devices = [] →
      (init env w).result
        = .error (.error ⟨"Error", some "Impossible to autostart, no input devices available."⟩) ∧
      (init env w).world._isAutostarting = some true ∧
      (init env w).world._ready = w._ready ∧
      (init env w).world._device = w._device ∧
      (init env w).world.trace
        = w.trace ++ [.emit (.autostarting true), .getUserMedia] ++
          List.replicate n Action.trackStop ++
          (if w.permissionResponseStopped then []
           else [.emit (.permissionResponse (some true))]) ++
          [.listVideoInputDevices, .emit (.hasDevices (some false)), .emit (.camerasFound []),
           .emit (.camerasNotFound none)] ∧
      (w._ready = false → ∀ ds : List (Option MediaDeviceInfo),
        ds.foldl (fun u d => set_device d env2 u) (init env w).world
          = { (init env w).world with
              _devicePreStart := ds.getLast?.getD (init env w).world._devicePreStart })) ∧
    ((askForPermission env (set_isAutostarting true w)).2 ≠ some true →
      (init env w).result = .ok () ∧
      (init env w).world._isAutostarting = some false ∧
      (init env w).world._ready = true ∧
      (init env w).world.trace
        = (askForPermission env (set_isAutostarting true w)).1.trace ++
          [.emit (.autostarting false), .emit .autostarted] ∧
      (init env w).world.loops = (askForPermission env (set_isAutostarting true w)).1.loops ∧
      (init env w).world._scanSubscription
        = (askForPermission env (set_isAutostarting true w)).1._scanSubscription ∧
      (init env w).world._device
        = (askForPermission env (set_isAutostarting true w)).1._device) := by
  refine ⟨?_, ?_⟩
  · intro n hn hm hu hd
    have hi : (init env w).world._ready = w._ready := by
      cases hs : w.permissionResponseStopped <;>
        simp [init, hauto, initAutostartOn, set_isAutostarting, askForPermission, hn, hm, hu,
          terminateStream, setPermission, updateVideoInputDevices, hd, autostartScanner,
          selectDevice, emit, act, hs]
    refine ⟨?_, ?_, hi, ?_, ?_, ?_⟩
    · simp [init, hauto, initAutostartOn, set_isAutostarting, askForPermission, hn, hm, hu,
        terminateStream, setPermission, updateVideoInputDevices, hd, autostartScanner,
        selectDevice, emit, act]
    · cases hs : w.permissionResponseStopped <;>
        simp [init, hauto, initAutostartOn, set_isAutostarting, askForPermission, hn, hm, hu,
          terminateStream, setPermission, updateVideoInputDevices, hd, autostartScanner,
          selectDevice, emit, act, hs]
    · cases hs : w.permissionResponseStopped <;>
        simp [init, hauto, initAutostartOn, set_isAutostarting, askForPermission, hn, hm, hu,
          terminateStream, setPermission, updateVideoInputDevices, hd, autostartScanner,
          selectDevice, emit, act, hs]
    · cases hs : w.permissionResponseStopped <;>
        simp [init, hauto, initAutostartOn, set_isAutostarting, askForPermission, hn, hm, hu,
          terminateStream, setPermission, updateVideoInputDevices, hd, autostartScanner,
          selectDevice, emit, act, hs]
    · intro hr ds
      exact foldl_set_device_not_ready ds env2 _ (by rw [hi]; exact hr)
  · intro hp
    simp only [init, hauto, initAutostartOn, Bool.not_true, Bool.false_eq_true, if_false]
    rw [if_neg hp]
    simp [set_isAutostarting, emit, act]

/-- Witness for C29: a fresh component in a browser that grants the camera
but lists no device, and one in a browser that denies the camera. -/
theorem init_autostart_outcomes_witness :
    (init (grantingEnv []) (construct true true)).result
      = .error (.error ⟨"Error", some "Impossible to autostart, no input devices available."⟩) ∧
    (init (grantingEnv []) (construct true true)).world._isAutostarting = some true ∧
    (init (grantingEnv []) (construct true true)).world._ready = false ∧
    (init deniedEnv (construct true true)).result = .ok () ∧
    (init deniedEnv (construct true true)).world._ready = true :=
  have h := init_autostart_outcomes (grantingEnv []) (grantingEnv [backCamera])
    (construct true true) (by decide)
  have h1 := h.1 1 (by decide) (by decide) rfl rfl
  have h2 := (init_autostart_outcomes deniedEnv deniedEnv (construct true true) (by decide)).2
    (by decide)
  ⟨h1.1, h1.2.1, h1.2.2.1.trans (by decide), h2.1, h2.2.2.1⟩

/-! ## Exceptions of the decode callback -/

/-- C30: the decode callback throws. For an error that is none of the three
scan-failure names: without a message, `error.message.includes(...)` throws a
`TypeError` and the state is untouched; with a message that is not the
"No MultiFormat Readers" diagnostic, while the reader holds no controls,
`this.scannerControls.stop()` throws a `TypeError` after the stream was
errored. -/
theorem decodeCallback_throws (r k : Nat) (e : JsError) (w : World)
    (hname : e.name ≠ "NotFoundException" ∧ e.name ≠ "ChecksumException" ∧
      e.name ≠ "FormatException") :
    (e.message = none →
      (decodeCallback r k none (some e) w).result = .error .typeError) ∧
    (∀ m, e.message = some m →
      jsIncludes m "No MultiFormat Readers were able to detect the code." = false →
      (w.readers r).scannerControls = none →
      (decodeCallback r k none (some e) w).result = .error .typeError ∧
      (decodeCallback r k none (some e) w).world = subjectError k e w) := by
  refine ⟨?_, ?_⟩
  · intro hmsg
    simp [decodeCallback, isScanFailure, hname.1, hname.2.1, hname.2.2, hmsg]
  · intro m hm hi hctl
    have hctl1 : ((subjectError k e w).readers r).scannerControls = none := by
      by_cases hst : (w.streams k).isStopped = true <;>
      cases ho : (w.streams k).observer <;>
        simp [subjectError, hst, ho, setStream, _onDecodeError, dispatchScanError, emit, act,
          hctl]
    simp [decodeCallback, isScanFailure, hname.1, hname.2.1, hname.2.2, hm, hi, hctl1]

/-- Witness for C30: on the scanning component a message-less
`IllegalStateException` throws; on the halted component, whose controls were
cleared, a further fatal error throws; and so does a fatal error delivered to
a reader that has not stored controls yet. -/
theorem decodeCallback_throws_witness :
    (decodeCallback 0 0 none (some ⟨"IllegalStateException", none⟩) scanningWorld).result
      = .error .typeError ∧
    (decodeCallback 0 0 none (some ⟨"OverconstrainedError", some "lost"⟩) haltedWorld).result
      = .error .typeError ∧
    (decodeCallback 0 0 none (some ⟨"OverconstrainedError", some "lost"⟩)
      (scanFromDeviceBegin "cam0" (construct true true)).1).result = .error .typeError :=
  ⟨(decodeCallback_throws 0 0 ⟨"IllegalStateException", none⟩ scanningWorld (by decide)).1 rfl,
   ((decodeCallback_throws 0 0 ⟨"OverconstrainedError", some "lost"⟩ haltedWorld
      (by decide)).2 "lost" rfl (by decide) (by decide)).1,
   by decide⟩

end ZXingScanner
